import Mathlib

set_option maxHeartbeats 2000000
set_option maxRecDepth 8000

attribute [local semireducible] Rat.mul Rat.add Rat.sub Rat.inv Rat.ofScientific

/-!
Verification of the five-engine NLP pipeline of the repository
(tokenizer, sentence splitter, sentiment/emotion analyzer, keyword
extractor, named-entity recognizer).

The TypeScript sources are shallowly embedded here:
  * JS strings become `Str := List Char`; offsets are `Int` where the code
    can produce `-1` (from `String.indexOf`) and `Nat` where it cannot.
  * JS numbers become `Rat` (exact rationals); `Math.log`, which only
    occurs inside keyword scoring, is threaded through as an explicit
    function parameter so every statement proved about the extractor holds
    for every interpretation of `log`.
  * JS `Map` objects become insertion-ordered association lists with the
    `Map` semantics (`set` on an existing key keeps its position, iteration
    order is insertion order); JS plain-object records become association
    lists read with last-duplicate-wins lookup, matching object literals.
  * `Array.prototype.sort` (stable since ES2019) becomes a stable insertion
    sort driven by the source comparator.
  * loops with `break`/`continue` become folds with explicit state.
All scanning functions take an explicit fuel argument (always instantiated
with a sufficient bound) so that every definition reduces in the kernel.
-/

-- ===========================================================================
-- § JS string / char primitives
-- ===========================================================================

/-- A JS string, as its sequence of characters. -/
abbrev Str := List Char

/-- The apostrophe character. -/
def apos : Char := '\''

/-- ASCII letter, the class `[A-Za-z]` of the source regexes. -/
def isAsciiLetter (c : Char) : Bool :=
  decide (65 ≤ c.toNat) && decide (c.toNat ≤ 90)
    || decide (97 ≤ c.toNat) && decide (c.toNat ≤ 122)

/-- ASCII digit, the class `\d`. -/
def isDigitChar (c : Char) : Bool :=
  decide (48 ≤ c.toNat) && decide (c.toNat ≤ 57)

/-- The JS regex class `\w` (`[A-Za-z0-9_]`). -/
def isWordChar (c : Char) : Bool :=
  isAsciiLetter c || isDigitChar c || decide (c.toNat = 95)

/-- Code points matched by the JS regex class `\s`. -/
def wsCodes : List Nat :=
  [9, 10, 11, 12, 13, 32, 160, 5760, 8192, 8193, 8194, 8195, 8196, 8197,
   8198, 8199, 8200, 8201, 8202, 8232, 8233, 8239, 8287, 12288, 65279]

/-- JS whitespace (`\s`, also the class trimmed by `String.trim`). -/
def isSpaceChar (c : Char) : Bool := wsCodes.contains c.toNat

/-- `String.prototype.toLowerCase` on one character (ASCII range, which is
all the source code depends on). -/
def lowerChar (c : Char) : Char :=
  if 65 ≤ c.toNat ∧ c.toNat ≤ 90 then Char.ofNat (c.toNat + 32) else c

/-- `String.prototype.toLowerCase`. -/
def lowerS (s : Str) : Str := s.map lowerChar

/-- `String.prototype.toUpperCase` on one character (ASCII range). -/
def upperChar (c : Char) : Char :=
  if 97 ≤ c.toNat ∧ c.toNat ≤ 122 then Char.ofNat (c.toNat - 32) else c

/-- Pack a character list into a `String` for lookups in the word tables. -/
def strOf (s : Str) : String := String.mk s

/-- Boolean prefix test on character lists. -/
def isPrefixB : Str → Str → Bool
  | [], _ => true
  | _ :: _, [] => false
  | a :: as, b :: bs => a == b && isPrefixB as bs

/-- Search step of `String.prototype.indexOf`: first index `i ≤ j` at which
`needle` occurs in `hay`, with explicit fuel. -/
def findFromF (hay needle : Str) : Nat → Nat → Option Nat
  | 0, _ => none
  | fuel + 1, i =>
    if isPrefixB needle (hay.drop i) then some i
    else if hay.length ≤ i then none
    else findFromF hay needle fuel (i + 1)

/-- `String.prototype.indexOf(needle, fromIndex)`: `-1` when absent, the
`fromIndex` is clamped into `[0, hay.length]` as in JS. -/
def jsIndexOf (hay needle : Str) (fromIndex : Int) : Int :=
  let start := min fromIndex.toNat hay.length
  match findFromF hay needle (hay.length + 1) start with
  | some n => (n : Int)
  | none => -1

/-- `String.prototype.substring(a, b)`: negative arguments are clamped to 0,
arguments above the length are clamped down, and the two are swapped when
out of order. -/
def jsSubstring (s : Str) (a b : Int) : Str :=
  let a' := min a.toNat s.length
  let b' := min b.toNat s.length
  if a' ≤ b' then (s.drop a').take (b' - a') else (s.drop b').take (a' - b')

/-- `String.prototype.trim`. -/
def jsTrim (s : Str) : Str :=
  ((s.dropWhile isSpaceChar).reverse.dropWhile isSpaceChar).reverse

-- ===========================================================================
-- § JS Map / object / sort primitives
-- ===========================================================================

/-- `Map.prototype.get` (`undefined` becomes `none`): first matching key. -/
def jsMapGet [BEq κ] (m : List (κ × α)) (k : κ) : Option α :=
  (m.find? (fun e => e.1 == k)).map (·.2)

/-- `Map.prototype.set`: updates an existing key in place (keeping its
insertion position) or appends a new one. -/
def jsMapSet [BEq κ] : List (κ × α) → κ → α → List (κ × α)
  | [], k, v => [(k, v)]
  | (k2, v2) :: rest, k, v =>
    if k2 == k then (k2, v) :: rest else (k2, v2) :: jsMapSet rest k v

/-- `Map.prototype.delete`: removes the entry with the given key. -/
def jsMapDelete [BEq κ] : List (κ × α) → κ → List (κ × α)
  | [], _ => []
  | (k2, v2) :: rest, k =>
    if k2 == k then rest else (k2, v2) :: jsMapDelete rest k

/-- Lookup in a JS object literal given as its (possibly duplicated) entry
list: the last duplicate key wins, as in an object literal. -/
def jsObjGet (m : List (String × α)) (k : String) : Option α :=
  (m.reverse.find? (fun e => e.1 == k)).map (·.2)

/-- Insert `x` into `l` in front of the first element that does not strictly
precede it: the inner step of a stable insertion sort. -/
def insertBy (lt : α → α → Bool) (x : α) : List α → List α
  | [] => [x]
  | y :: ys => if lt y x then y :: insertBy lt x ys else x :: y :: ys

/-- `Array.prototype.sort` with a consistent comparator `cmp`, as the stable
insertion sort by the strict order `lt a b ↔ cmp a b < 0`. -/
def jsSortBy (lt : α → α → Bool) : List α → List α
  | [] => []
  | x :: xs => insertBy lt x (jsSortBy lt xs)

/-- JS `Math.round` (round half toward positive infinity). -/
def jsRound (q : Rat) : Int := (q + 1/2).floor

/-- JS truthiness of an optionally-absent number (`undefined` and `0` are
falsy). -/
def jsTruthyNum (o : Option Rat) : Bool :=
  match o with
  | some v => v != 0
  | none => false

-- ===========================================================================
-- § Tokenizer: data model (src/lib/nlp/tokenizer.ts)
-- ===========================================================================

/-- The `PartOfSpeech` union of the source types. -/
inductive PartOfSpeech
  | NOUN | VERB | ADJ | ADV | PRON | DET | ADP | CONJ
  | NUM | PUNCT | SYM | INTJ | PART
deriving DecidableEq, Repr

/-- One suffix-stripping lemmatization rule (`LemmaRule` of tokenizer.ts);
`pos` is the optional list of parts of speech the rule is gated on. -/
structure LemmaRule where
  suffix : String
  replacement : String
  minLength : Nat
  pos : Option (List PartOfSpeech)
deriving Repr

/-- A produced token (`Token` of the shared types, with the field names used
by the engines; the source's `lemma` field is `lem` here because `lemma` is
a Lean keyword). -/
structure Token where
  text : Str
  lem : Str
  pos : PartOfSpeech
  tag : String
  isStopWord : Bool
  isPunctuation : Bool
  isAlpha : Bool
  isDigit : Bool
  index : Nat
  startChar : Int
  endChar : Int
deriving DecidableEq, Repr

/-- The tokenizer's fixed stop-word set (`STOP_WORDS` of tokenizer.ts). -/
def TOK_STOP_WORDS : List String :=
  ["a", "an", "the", "and", "or", "but", "in", "on", "at", "to", "for", "of", "with", "by", "from", "up", "about", "into", "through", "during", "before", "after", "above", "below", "between", "under", "again", "further", "then", "once", "here", "there", "when", "where", "why", "how", "all", "each", "few", "more", "most", "other", "some", "such", "no", "nor", "not", "only", "own", "same", "so", "than", "too", "very", "s", "t", "can", "will", "just", "don", "should", "now", "i", "me", "my", "myself", "we", "our", "ours", "ourselves", "you", "your", "yours", "yourself", "yourselves", "he", "him", "his", "himself", "she", "her", "hers", "herself", "it", "its", "itself", "they", "them", "their", "theirs", "themselves", "what", "which", "who", "whom", "this", "that", "these", "those", "am", "is", "are", "was", "were", "be", "been", "being", "have", "has", "had", "having", "do", "does", "did", "doing", "would", "could", "ought", "as", "until", "while", "if", "because", "against", "both", "any", "over"]
/-- Ordered suffix-stripping rules (`LEMMA_RULES` of tokenizer.ts). -/
def LEMMA_RULES : List LemmaRule :=
  [LemmaRule.mk "ing" "" 5 (some [PartOfSpeech.VERB]),
   LemmaRule.mk "ying" "y" 5 (some [PartOfSpeech.VERB]),
   LemmaRule.mk "ied" "y" 4 (some [PartOfSpeech.VERB]),
   LemmaRule.mk "ies" "y" 4 (some [PartOfSpeech.VERB]),
   LemmaRule.mk "ed" "" 4 (some [PartOfSpeech.VERB]),
   LemmaRule.mk "es" "" 4 (some [PartOfSpeech.VERB]),
   LemmaRule.mk "s" "" 4 (some [PartOfSpeech.VERB, PartOfSpeech.NOUN]),
   LemmaRule.mk "ies" "y" 4 (some [PartOfSpeech.NOUN]),
   LemmaRule.mk "ves" "f" 4 (some [PartOfSpeech.NOUN]),
   LemmaRule.mk "xes" "x" 4 (some [PartOfSpeech.NOUN]),
   LemmaRule.mk "zes" "z" 4 (some [PartOfSpeech.NOUN]),
   LemmaRule.mk "ches" "ch" 5 (some [PartOfSpeech.NOUN]),
   LemmaRule.mk "shes" "sh" 5 (some [PartOfSpeech.NOUN]),
   LemmaRule.mk "ses" "s" 4 (some [PartOfSpeech.NOUN]),
   LemmaRule.mk "men" "man" 4 (some [PartOfSpeech.NOUN]),
   LemmaRule.mk "er" "" 4 (some [PartOfSpeech.ADJ]),
   LemmaRule.mk "est" "" 5 (some [PartOfSpeech.ADJ]),
   LemmaRule.mk "ier" "y" 4 (some [PartOfSpeech.ADJ]),
   LemmaRule.mk "iest" "y" 5 (some [PartOfSpeech.ADJ]),
   LemmaRule.mk "ly" "" 4 (some [PartOfSpeech.ADV]),
   LemmaRule.mk "ness" "" 6 (some [PartOfSpeech.NOUN]),
   LemmaRule.mk "ment" "" 6 (some [PartOfSpeech.NOUN]),
   LemmaRule.mk "tion" "te" 6 (some [PartOfSpeech.NOUN]),
   LemmaRule.mk "ation" "" 7 (some [PartOfSpeech.NOUN]),
   LemmaRule.mk "ity" "" 5 (some [PartOfSpeech.NOUN]),
   LemmaRule.mk "able" "" 6 (some [PartOfSpeech.ADJ]),
   LemmaRule.mk "ible" "" 6 (some [PartOfSpeech.ADJ]),
   LemmaRule.mk "ful" "" 5 (some [PartOfSpeech.ADJ]),
   LemmaRule.mk "less" "" 6 (some [PartOfSpeech.ADJ]),
   LemmaRule.mk "ous" "" 5 (some [PartOfSpeech.ADJ]),
   LemmaRule.mk "ive" "" 5 (some [PartOfSpeech.ADJ])]

/-- Irregular verb and contraction table (`IRREGULAR_VERBS` of tokenizer.ts, duplicate keys kept in source order; lookups take the last one, as a JS object literal does). -/
def IRREGULAR_VERBS : List (String × String) :=
  [("was", "be"),
   ("were", "be"),
   ("been", "be"),
   ("being", "be"),
   ("am", "be"),
   ("is", "be"),
   ("are", "be"),
   ("had", "have"),
   ("has", "have"),
   ("having", "have"),
   ("did", "do"),
   ("does", "do"),
   ("doing", "do"),
   ("done", "do"),
   ("went", "go"),
   ("goes", "go"),
   ("going", "go"),
   ("gone", "go"),
   ("said", "say"),
   ("says", "say"),
   ("saying", "say"),
   ("made", "make"),
   ("makes", "make"),
   ("making", "make"),
   ("knew", "know"),
   ("knows", "know"),
   ("knowing", "know"),
   ("known", "know"),
   ("thought", "think"),
   ("thinks", "think"),
   ("thinking", "think"),
   ("took", "take"),
   ("takes", "take"),
   ("taking", "take"),
   ("taken", "take"),
   ("came", "come"),
   ("comes", "come"),
   ("coming", "come"),
   ("saw", "see"),
   ("sees", "see"),
   ("seeing", "see"),
   ("seen", "see"),
   ("got", "get"),
   ("gets", "get"),
   ("getting", "get"),
   ("gotten", "get"),
   ("gave", "give"),
   ("gives", "give"),
   ("giving", "give"),
   ("given", "give"),
   ("found", "find"),
   ("finds", "find"),
   ("finding", "find"),
   ("told", "tell"),
   ("tells", "tell"),
   ("telling", "tell"),
   ("felt", "feel"),
   ("feels", "feel"),
   ("feeling", "feel"),
   ("left", "leave"),
   ("leaves", "leave"),
   ("leaving", "leave"),
   ("brought", "bring"),
   ("brings", "bring"),
   ("bringing", "bring"),
   ("began", "begin"),
   ("begins", "begin"),
   ("beginning", "begin"),
   ("begun", "begin"),
   ("kept", "keep"),
   ("keeps", "keep"),
   ("keeping", "keep"),
   ("held", "hold"),
   ("holds", "hold"),
   ("holding", "hold"),
   ("wrote", "write"),
   ("writes", "write"),
   ("writing", "write"),
   ("written", "write"),
   ("stood", "stand"),
   ("stands", "stand"),
   ("standing", "stand"),
   ("heard", "hear"),
   ("hears", "hear"),
   ("hearing", "hear"),
   ("let", "let"),
   ("lets", "let"),
   ("letting", "let"),
   ("meant", "mean"),
   ("means", "mean"),
   ("meaning", "mean"),
   ("set", "set"),
   ("sets", "set"),
   ("setting", "set"),
   ("met", "meet"),
   ("meets", "meet"),
   ("meeting", "meet"),
   ("ran", "run"),
   ("runs", "run"),
   ("running", "run"),
   ("paid", "pay"),
   ("pays", "pay"),
   ("paying", "pay"),
   ("sat", "sit"),
   ("sits", "sit"),
   ("sitting", "sit"),
   ("spoke", "speak"),
   ("speaks", "speak"),
   ("speaking", "speak"),
   ("spoken", "speak"),
   ("lay", "lie"),
   ("lies", "lie"),
   ("lying", "lie"),
   ("lain", "lie"),
   ("led", "lead"),
   ("leads", "lead"),
   ("leading", "lead"),
   ("read", "read"),
   ("reads", "read"),
   ("reading", "read"),
   ("grew", "grow"),
   ("grows", "grow"),
   ("growing", "grow"),
   ("grown", "grow"),
   ("lost", "lose"),
   ("loses", "lose"),
   ("losing", "lose"),
   ("fell", "fall"),
   ("falls", "fall"),
   ("falling", "fall"),
   ("fallen", "fall"),
   ("sent", "send"),
   ("sends", "send"),
   ("sending", "send"),
   ("built", "build"),
   ("builds", "build"),
   ("building", "build"),
   ("spent", "spend"),
   ("spends", "spend"),
   ("spending", "spend"),
   ("cut", "cut"),
   ("cuts", "cut"),
   ("cutting", "cut"),
   ("hit", "hit"),
   ("hits", "hit"),
   ("hitting", "hit"),
   ("put", "put"),
   ("puts", "put"),
   ("putting", "put"),
   ("shut", "shut"),
   ("shuts", "shut"),
   ("shutting", "shut"),
   ("hurt", "hurt"),
   ("hurts", "hurt"),
   ("hurting", "hurt"),
   ("cost", "cost"),
   ("costs", "cost"),
   ("costing", "cost"),
   ("burst", "burst"),
   ("bursts", "burst"),
   ("bursting", "burst"),
   ("sold", "sell"),
   ("sells", "sell"),
   ("selling", "sell"),
   ("bought", "buy"),
   ("buys", "buy"),
   ("buying", "buy"),
   ("caught", "catch"),
   ("catches", "catch"),
   ("catching", "catch"),
   ("taught", "teach"),
   ("teaches", "teach"),
   ("teaching", "teach"),
   ("fought", "fight"),
   ("fights", "fight"),
   ("fighting", "fight"),
   ("sought", "seek"),
   ("seeks", "seek"),
   ("seeking", "seek"),
   ("wore", "wear"),
   ("wears", "wear"),
   ("wearing", "wear"),
   ("worn", "wear"),
   ("bore", "bear"),
   ("bears", "bear"),
   ("bearing", "bear"),
   ("borne", "bear"),
   ("born", "bear"),
   ("tore", "tear"),
   ("tears", "tear"),
   ("tearing", "tear"),
   ("torn", "tear"),
   ("swore", "swear"),
   ("swears", "swear"),
   ("swearing", "swear"),
   ("sworn", "swear"),
   ("broke", "break"),
   ("breaks", "break"),
   ("breaking", "break"),
   ("broken", "break"),
   ("chose", "choose"),
   ("chooses", "choose"),
   ("choosing", "choose"),
   ("chosen", "choose"),
   ("froze", "freeze"),
   ("freezes", "freeze"),
   ("freezing", "freeze"),
   ("frozen", "freeze"),
   ("woke", "wake"),
   ("wakes", "wake"),
   ("waking", "wake"),
   ("woken", "wake"),
   ("drove", "drive"),
   ("drives", "drive"),
   ("driving", "drive"),
   ("driven", "drive"),
   ("rode", "ride"),
   ("rides", "ride"),
   ("riding", "ride"),
   ("ridden", "ride"),
   ("rose", "rise"),
   ("rises", "rise"),
   ("rising", "rise"),
   ("risen", "rise"),
   ("wrote", "write"),
   ("writes", "write"),
   ("writing", "write"),
   ("written", "write"),
   ("hid", "hide"),
   ("hides", "hide"),
   ("hiding", "hide"),
   ("hidden", "hide"),
   ("bit", "bite"),
   ("bites", "bite"),
   ("biting", "bite"),
   ("bitten", "bite"),
   ("flew", "fly"),
   ("flies", "fly"),
   ("flying", "fly"),
   ("flown", "fly"),
   ("drew", "draw"),
   ("draws", "draw"),
   ("drawing", "draw"),
   ("drawn", "draw"),
   ("threw", "throw"),
   ("throws", "throw"),
   ("throwing", "throw"),
   ("thrown", "throw"),
   ("blew", "blow"),
   ("blows", "blow"),
   ("blowing", "blow"),
   ("blown", "blow"),
   ("knew", "know"),
   ("knows", "know"),
   ("knowing", "know"),
   ("known", "know"),
   ("slew", "slay"),
   ("slays", "slay"),
   ("slaying", "slay"),
   ("slain", "slay"),
   ("swam", "swim"),
   ("swims", "swim"),
   ("swimming", "swim"),
   ("swum", "swim"),
   ("sang", "sing"),
   ("sings", "sing"),
   ("singing", "sing"),
   ("sung", "sing"),
   ("rang", "ring"),
   ("rings", "ring"),
   ("ringing", "ring"),
   ("rung", "ring"),
   ("sank", "sink"),
   ("sinks", "sink"),
   ("sinking", "sink"),
   ("sunk", "sink"),
   ("shrank", "shrink"),
   ("shrinks", "shrink"),
   ("shrinking", "shrink"),
   ("shrunk", "shrink"),
   ("stank", "stink"),
   ("stinks", "stink"),
   ("stinking", "stink"),
   ("stunk", "stink"),
   ("drank", "drink"),
   ("drinks", "drink"),
   ("drinking", "drink"),
   ("drunk", "drink"),
   ("sprang", "spring"),
   ("springs", "spring"),
   ("springing", "spring"),
   ("sprung", "spring")]

/-- Irregular plural table (`IRREGULAR_PLURALS` of tokenizer.ts). -/
def IRREGULAR_PLURALS : List (String × String) :=
  [("children", "child"),
   ("feet", "foot"),
   ("teeth", "tooth"),
   ("mice", "mouse"),
   ("geese", "goose"),
   ("men", "man"),
   ("women", "woman"),
   ("people", "person"),
   ("oxen", "ox"),
   ("dice", "die"),
   ("lice", "louse"),
   ("criteria", "criterion"),
   ("phenomena", "phenomenon"),
   ("data", "datum"),
   ("bacteria", "bacterium"),
   ("cacti", "cactus"),
   ("fungi", "fungus"),
   ("nuclei", "nucleus"),
   ("radii", "radius"),
   ("alumni", "alumnus"),
   ("syllabi", "syllabus"),
   ("analyses", "analysis"),
   ("bases", "basis"),
   ("crises", "crisis"),
   ("diagnoses", "diagnosis"),
   ("hypotheses", "hypothesis"),
   ("oases", "oasis"),
   ("parentheses", "parenthesis"),
   ("syntheses", "synthesis"),
   ("theses", "thesis"),
   ("appendices", "appendix"),
   ("indices", "index"),
   ("matrices", "matrix"),
   ("vertices", "vertex")]

/-- Curated word to part-of-speech map (`WORD_POS_MAP` of tokenizer.ts, duplicate keys kept in source order). -/
def WORD_POS_MAP : List (String × PartOfSpeech × String) :=
  [("be", PartOfSpeech.VERB, "VB"),
   ("have", PartOfSpeech.VERB, "VB"),
   ("do", PartOfSpeech.VERB, "VB"),
   ("say", PartOfSpeech.VERB, "VB"),
   ("get", PartOfSpeech.VERB, "VB"),
   ("make", PartOfSpeech.VERB, "VB"),
   ("go", PartOfSpeech.VERB, "VB"),
   ("know", PartOfSpeech.VERB, "VB"),
   ("take", PartOfSpeech.VERB, "VB"),
   ("see", PartOfSpeech.VERB, "VB"),
   ("come", PartOfSpeech.VERB, "VB"),
   ("think", PartOfSpeech.VERB, "VB"),
   ("look", PartOfSpeech.VERB, "VB"),
   ("want", PartOfSpeech.VERB, "VB"),
   ("give", PartOfSpeech.VERB, "VB"),
   ("use", PartOfSpeech.VERB, "VB"),
   ("find", PartOfSpeech.VERB, "VB"),
   ("tell", PartOfSpeech.VERB, "VB"),
   ("ask", PartOfSpeech.VERB, "VB"),
   ("work", PartOfSpeech.VERB, "VB"),
   ("seem", PartOfSpeech.VERB, "VB"),
   ("feel", PartOfSpeech.VERB, "VB"),
   ("try", PartOfSpeech.VERB, "VB"),
   ("leave", PartOfSpeech.VERB, "VB"),
   ("call", PartOfSpeech.VERB, "VB"),
   ("need", PartOfSpeech.VERB, "VB"),
   ("become", PartOfSpeech.VERB, "VB"),
   ("put", PartOfSpeech.VERB, "VB"),
   ("mean", PartOfSpeech.VERB, "VB"),
   ("keep", PartOfSpeech.VERB, "VB"),
   ("let", PartOfSpeech.VERB, "VB"),
   ("begin", PartOfSpeech.VERB, "VB"),
   ("show", PartOfSpeech.VERB, "VB"),
   ("hear", PartOfSpeech.VERB, "VB"),
   ("play", PartOfSpeech.VERB, "VB"),
   ("run", PartOfSpeech.VERB, "VB"),
   ("move", PartOfSpeech.VERB, "VB"),
   ("live", PartOfSpeech.VERB, "VB"),
   ("believe", PartOfSpeech.VERB, "VB"),
   ("hold", PartOfSpeech.VERB, "VB"),
   ("bring", PartOfSpeech.VERB, "VB"),
   ("happen", PartOfSpeech.VERB, "VB"),
   ("write", PartOfSpeech.VERB, "VB"),
   ("provide", PartOfSpeech.VERB, "VB"),
   ("sit", PartOfSpeech.VERB, "VB"),
   ("stand", PartOfSpeech.VERB, "VB"),
   ("lose", PartOfSpeech.VERB, "VB"),
   ("pay", PartOfSpeech.VERB, "VB"),
   ("meet", PartOfSpeech.VERB, "VB"),
   ("include", PartOfSpeech.VERB, "VB"),
   ("continue", PartOfSpeech.VERB, "VB"),
   ("set", PartOfSpeech.VERB, "VB"),
   ("learn", PartOfSpeech.VERB, "VB"),
   ("change", PartOfSpeech.VERB, "VB"),
   ("lead", PartOfSpeech.VERB, "VB"),
   ("understand", PartOfSpeech.VERB, "VB"),
   ("watch", PartOfSpeech.VERB, "VB"),
   ("follow", PartOfSpeech.VERB, "VB"),
   ("stop", PartOfSpeech.VERB, "VB"),
   ("create", PartOfSpeech.VERB, "VB"),
   ("speak", PartOfSpeech.VERB, "VB"),
   ("read", PartOfSpeech.VERB, "VB"),
   ("allow", PartOfSpeech.VERB, "VB"),
   ("add", PartOfSpeech.VERB, "VB"),
   ("spend", PartOfSpeech.VERB, "VB"),
   ("grow", PartOfSpeech.VERB, "VB"),
   ("open", PartOfSpeech.VERB, "VB"),
   ("walk", PartOfSpeech.VERB, "VB"),
   ("win", PartOfSpeech.VERB, "VB"),
   ("offer", PartOfSpeech.VERB, "VB"),
   ("remember", PartOfSpeech.VERB, "VB"),
   ("love", PartOfSpeech.VERB, "VB"),
   ("consider", PartOfSpeech.VERB, "VB"),
   ("appear", PartOfSpeech.VERB, "VB"),
   ("buy", PartOfSpeech.VERB, "VB"),
   ("wait", PartOfSpeech.VERB, "VB"),
   ("serve", PartOfSpeech.VERB, "VB"),
   ("die", PartOfSpeech.VERB, "VB"),
   ("send", PartOfSpeech.VERB, "VB"),
   ("expect", PartOfSpeech.VERB, "VB"),
   ("build", PartOfSpeech.VERB, "VB"),
   ("stay", PartOfSpeech.VERB, "VB"),
   ("fall", PartOfSpeech.VERB, "VB"),
   ("cut", PartOfSpeech.VERB, "VB"),
   ("reach", PartOfSpeech.VERB, "VB"),
   ("kill", PartOfSpeech.VERB, "VB"),
   ("remain", PartOfSpeech.VERB, "VB"),
   ("suggest", PartOfSpeech.VERB, "VB"),
   ("raise", PartOfSpeech.VERB, "VB"),
   ("pass", PartOfSpeech.VERB, "VB"),
   ("sell", PartOfSpeech.VERB, "VB"),
   ("require", PartOfSpeech.VERB, "VB"),
   ("report", PartOfSpeech.VERB, "VB"),
   ("decide", PartOfSpeech.VERB, "VB"),
   ("pull", PartOfSpeech.VERB, "VB"),
   ("develop", PartOfSpeech.VERB, "VB"),
   ("time", PartOfSpeech.NOUN, "NN"),
   ("year", PartOfSpeech.NOUN, "NN"),
   ("people", PartOfSpeech.NOUN, "NNS"),
   ("way", PartOfSpeech.NOUN, "NN"),
   ("day", PartOfSpeech.NOUN, "NN"),
   ("man", PartOfSpeech.NOUN, "NN"),
   ("thing", PartOfSpeech.NOUN, "NN"),
   ("woman", PartOfSpeech.NOUN, "NN"),
   ("life", PartOfSpeech.NOUN, "NN"),
   ("child", PartOfSpeech.NOUN, "NN"),
   ("world", PartOfSpeech.NOUN, "NN"),
   ("school", PartOfSpeech.NOUN, "NN"),
   ("state", PartOfSpeech.NOUN, "NN"),
   ("family", PartOfSpeech.NOUN, "NN"),
   ("student", PartOfSpeech.NOUN, "NN"),
   ("group", PartOfSpeech.NOUN, "NN"),
   ("country", PartOfSpeech.NOUN, "NN"),
   ("problem", PartOfSpeech.NOUN, "NN"),
   ("hand", PartOfSpeech.NOUN, "NN"),
   ("part", PartOfSpeech.NOUN, "NN"),
   ("place", PartOfSpeech.NOUN, "NN"),
   ("case", PartOfSpeech.NOUN, "NN"),
   ("week", PartOfSpeech.NOUN, "NN"),
   ("company", PartOfSpeech.NOUN, "NN"),
   ("system", PartOfSpeech.NOUN, "NN"),
   ("program", PartOfSpeech.NOUN, "NN"),
   ("question", PartOfSpeech.NOUN, "NN"),
   ("work", PartOfSpeech.NOUN, "NN"),
   ("government", PartOfSpeech.NOUN, "NN"),
   ("number", PartOfSpeech.NOUN, "NN"),
   ("night", PartOfSpeech.NOUN, "NN"),
   ("point", PartOfSpeech.NOUN, "NN"),
   ("home", PartOfSpeech.NOUN, "NN"),
   ("water", PartOfSpeech.NOUN, "NN"),
   ("room", PartOfSpeech.NOUN, "NN"),
   ("mother", PartOfSpeech.NOUN, "NN"),
   ("area", PartOfSpeech.NOUN, "NN"),
   ("money", PartOfSpeech.NOUN, "NN"),
   ("story", PartOfSpeech.NOUN, "NN"),
   ("fact", PartOfSpeech.NOUN, "NN"),
   ("month", PartOfSpeech.NOUN, "NN"),
   ("lot", PartOfSpeech.NOUN, "NN"),
   ("right", PartOfSpeech.NOUN, "NN"),
   ("study", PartOfSpeech.NOUN, "NN"),
   ("book", PartOfSpeech.NOUN, "NN"),
   ("eye", PartOfSpeech.NOUN, "NN"),
   ("job", PartOfSpeech.NOUN, "NN"),
   ("word", PartOfSpeech.NOUN, "NN"),
   ("business", PartOfSpeech.NOUN, "NN"),
   ("issue", PartOfSpeech.NOUN, "NN"),
   ("side", PartOfSpeech.NOUN, "NN"),
   ("kind", PartOfSpeech.NOUN, "NN"),
   ("head", PartOfSpeech.NOUN, "NN"),
   ("house", PartOfSpeech.NOUN, "NN"),
   ("service", PartOfSpeech.NOUN, "NN"),
   ("friend", PartOfSpeech.NOUN, "NN"),
   ("father", PartOfSpeech.NOUN, "NN"),
   ("power", PartOfSpeech.NOUN, "NN"),
   ("hour", PartOfSpeech.NOUN, "NN"),
   ("game", PartOfSpeech.NOUN, "NN"),
   ("line", PartOfSpeech.NOUN, "NN"),
   ("end", PartOfSpeech.NOUN, "NN"),
   ("member", PartOfSpeech.NOUN, "NN"),
   ("law", PartOfSpeech.NOUN, "NN"),
   ("car", PartOfSpeech.NOUN, "NN"),
   ("city", PartOfSpeech.NOUN, "NN"),
   ("community", PartOfSpeech.NOUN, "NN"),
   ("name", PartOfSpeech.NOUN, "NN"),
   ("president", PartOfSpeech.NOUN, "NN"),
   ("team", PartOfSpeech.NOUN, "NN"),
   ("minute", PartOfSpeech.NOUN, "NN"),
   ("idea", PartOfSpeech.NOUN, "NN"),
   ("kid", PartOfSpeech.NOUN, "NN"),
   ("body", PartOfSpeech.NOUN, "NN"),
   ("information", PartOfSpeech.NOUN, "NN"),
   ("back", PartOfSpeech.NOUN, "NN"),
   ("parent", PartOfSpeech.NOUN, "NN"),
   ("face", PartOfSpeech.NOUN, "NN"),
   ("others", PartOfSpeech.NOUN, "NNS"),
   ("level", PartOfSpeech.NOUN, "NN"),
   ("office", PartOfSpeech.NOUN, "NN"),
   ("door", PartOfSpeech.NOUN, "NN"),
   ("health", PartOfSpeech.NOUN, "NN"),
   ("person", PartOfSpeech.NOUN, "NN"),
   ("art", PartOfSpeech.NOUN, "NN"),
   ("war", PartOfSpeech.NOUN, "NN"),
   ("history", PartOfSpeech.NOUN, "NN"),
   ("party", PartOfSpeech.NOUN, "NN"),
   ("result", PartOfSpeech.NOUN, "NN"),
   ("change", PartOfSpeech.NOUN, "NN"),
   ("morning", PartOfSpeech.NOUN, "NN"),
   ("reason", PartOfSpeech.NOUN, "NN"),
   ("research", PartOfSpeech.NOUN, "NN"),
   ("girl", PartOfSpeech.NOUN, "NN"),
   ("guy", PartOfSpeech.NOUN, "NN"),
   ("moment", PartOfSpeech.NOUN, "NN"),
   ("air", PartOfSpeech.NOUN, "NN"),
   ("teacher", PartOfSpeech.NOUN, "NN"),
   ("force", PartOfSpeech.NOUN, "NN"),
   ("education", PartOfSpeech.NOUN, "NN"),
   ("video", PartOfSpeech.NOUN, "NN"),
   ("content", PartOfSpeech.NOUN, "NN"),
   ("algorithm", PartOfSpeech.NOUN, "NN"),
   ("channel", PartOfSpeech.NOUN, "NN"),
   ("viewer", PartOfSpeech.NOUN, "NN"),
   ("creator", PartOfSpeech.NOUN, "NN"),
   ("audience", PartOfSpeech.NOUN, "NN"),
   ("engagement", PartOfSpeech.NOUN, "NN"),
   ("thumbnail", PartOfSpeech.NOUN, "NN"),
   ("hook", PartOfSpeech.NOUN, "NN"),
   ("script", PartOfSpeech.NOUN, "NN"),
   ("trend", PartOfSpeech.NOUN, "NN"),
   ("platform", PartOfSpeech.NOUN, "NN"),
   ("brand", PartOfSpeech.NOUN, "NN"),
   ("good", PartOfSpeech.ADJ, "JJ"),
   ("new", PartOfSpeech.ADJ, "JJ"),
   ("first", PartOfSpeech.ADJ, "JJ"),
   ("last", PartOfSpeech.ADJ, "JJ"),
   ("long", PartOfSpeech.ADJ, "JJ"),
   ("great", PartOfSpeech.ADJ, "JJ"),
   ("little", PartOfSpeech.ADJ, "JJ"),
   ("own", PartOfSpeech.ADJ, "JJ"),
   ("other", PartOfSpeech.ADJ, "JJ"),
   ("old", PartOfSpeech.ADJ, "JJ"),
   ("right", PartOfSpeech.ADJ, "JJ"),
   ("big", PartOfSpeech.ADJ, "JJ"),
   ("high", PartOfSpeech.ADJ, "JJ"),
   ("different", PartOfSpeech.ADJ, "JJ"),
   ("small", PartOfSpeech.ADJ, "JJ"),
   ("large", PartOfSpeech.ADJ, "JJ"),
   ("next", PartOfSpeech.ADJ, "JJ"),
   ("early", PartOfSpeech.ADJ, "JJ"),
   ("young", PartOfSpeech.ADJ, "JJ"),
   ("important", PartOfSpeech.ADJ, "JJ"),
   ("few", PartOfSpeech.ADJ, "JJ"),
   ("public", PartOfSpeech.ADJ, "JJ"),
   ("bad", PartOfSpeech.ADJ, "JJ"),
   ("same", PartOfSpeech.ADJ, "JJ"),
   ("able", PartOfSpeech.ADJ, "JJ"),
   ("viral", PartOfSpeech.ADJ, "JJ"),
   ("amazing", PartOfSpeech.ADJ, "JJ"),
   ("incredible", PartOfSpeech.ADJ, "JJ"),
   ("crazy", PartOfSpeech.ADJ, "JJ"),
   ("insane", PartOfSpeech.ADJ, "JJ"),
   ("shocking", PartOfSpeech.ADJ, "JJ"),
   ("secret", PartOfSpeech.ADJ, "JJ"),
   ("best", PartOfSpeech.ADJ, "JJS"),
   ("worst", PartOfSpeech.ADJ, "JJS"),
   ("better", PartOfSpeech.ADJ, "JJR"),
   ("worse", PartOfSpeech.ADJ, "JJR"),
   ("now", PartOfSpeech.ADV, "RB"),
   ("just", PartOfSpeech.ADV, "RB"),
   ("also", PartOfSpeech.ADV, "RB"),
   ("very", PartOfSpeech.ADV, "RB"),
   ("then", PartOfSpeech.ADV, "RB"),
   ("more", PartOfSpeech.ADV, "RBR"),
   ("here", PartOfSpeech.ADV, "RB"),
   ("well", PartOfSpeech.ADV, "RB"),
   ("only", PartOfSpeech.ADV, "RB"),
   ("even", PartOfSpeech.ADV, "RB"),
   ("back", PartOfSpeech.ADV, "RB"),
   ("there", PartOfSpeech.ADV, "RB"),
   ("still", PartOfSpeech.ADV, "RB"),
   ("down", PartOfSpeech.ADV, "RB"),
   ("up", PartOfSpeech.ADV, "RB"),
   ("out", PartOfSpeech.ADV, "RB"),
   ("really", PartOfSpeech.ADV, "RB"),
   ("never", PartOfSpeech.ADV, "RB"),
   ("always", PartOfSpeech.ADV, "RB"),
   ("most", PartOfSpeech.ADV, "RBS"),
   ("actually", PartOfSpeech.ADV, "RB"),
   ("literally", PartOfSpeech.ADV, "RB")]

-- ===========================================================================
-- § Tokenizer: POS tagging (POS_PATTERNS and determinePOS of tokenizer.ts)
-- ===========================================================================

/-- Test for a one-character token drawn from a character class. -/
def singleCharIn (cs : List Char) (s : Str) : Bool :=
  match s with
  | [c] => cs.contains c
  | _ => false

/-- Anchored case-insensitive word alternation, `/^(w1|w2|...)$/i`. -/
def wordIn (ws : List String) (s : Str) : Bool :=
  ws.contains (strOf (lowerS s))

/-- Unanchored case-insensitive suffix alternation, `/(s1|s2|...)$/i`. -/
def endsWithAnyCI (sufs : List String) (s : Str) : Bool :=
  sufs.any (fun suf => suf.data.isSuffixOf (lowerS s))

/-- `/^\d+$/`. -/
def patAllDigits (s : Str) : Bool := !s.isEmpty && s.all isDigitChar

/-- `/^\d+[,.]\d+$/`. -/
def patDecimalNum (s : Str) : Bool :=
  let ds := s.takeWhile isDigitChar
  let rest := s.dropWhile isDigitChar
  !ds.isEmpty &&
    match rest with
    | sep :: ds2 => (sep == ',' || sep == '.') && !ds2.isEmpty && ds2.all isDigitChar
    | [] => false

/-- `/^\d+(st|nd|rd|th)$/i`. -/
def patOrdinal (s : Str) : Bool :=
  let ds := s.takeWhile isDigitChar
  let rest := s.dropWhile isDigitChar
  !ds.isEmpty && ["st", "nd", "rd", "th"].contains (strOf (lowerS rest))

/-- `/^\$\d+/`. -/
def patDollarNum (s : Str) : Bool :=
  match s with
  | c :: c2 :: _ => c == '$' && isDigitChar c2
  | _ => false

/-- `/^\d+%$/`. -/
def patPercentNum (s : Str) : Bool :=
  let ds := s.takeWhile isDigitChar
  let rest := s.dropWhile isDigitChar
  !ds.isEmpty && rest == ['%']

/-- One entry of the ordered POS heuristic cascade (`POSPattern`). -/
structure PosPattern where
  test : Str → Bool
  pos : PartOfSpeech
  tag : String

/-- The ordered regex POS cascade (`POS_PATTERNS` of tokenizer.ts), each
regex replaced by an equivalent character/word test, in source order. -/
def POS_PATTERNS : List PosPattern :=
  [⟨singleCharIn ['.', '!', '?', ';', ':'], PartOfSpeech.PUNCT, "."⟩,
   ⟨singleCharIn [','], PartOfSpeech.PUNCT, ","⟩,
   ⟨singleCharIn ['-', Char.ofNat 8211, Char.ofNat 8212], PartOfSpeech.PUNCT, ":"⟩,
   ⟨singleCharIn [apos, '"', Char.ofNat 96, apos], PartOfSpeech.PUNCT, "''"⟩,
   ⟨singleCharIn ['(', ')', '[', ']', Char.ofNat 123, Char.ofNat 125],
     PartOfSpeech.PUNCT, "-LRB-"⟩,
   ⟨patAllDigits, PartOfSpeech.NUM, "CD"⟩,
   ⟨patDecimalNum, PartOfSpeech.NUM, "CD"⟩,
   ⟨patOrdinal, PartOfSpeech.ADJ, "JJ"⟩,
   ⟨patDollarNum, PartOfSpeech.NUM, "CD"⟩,
   ⟨patPercentNum, PartOfSpeech.NUM, "CD"⟩,
   ⟨wordIn ["a", "an", "the"], PartOfSpeech.DET, "DT"⟩,
   ⟨wordIn ["this", "that", "these", "those"], PartOfSpeech.DET, "DT"⟩,
   ⟨wordIn ["my", "your", "his", "her", "its", "our", "their"], PartOfSpeech.DET, "PRP$"⟩,
   ⟨wordIn ["some", "any", "no", "every", "each", "all", "both", "few", "many",
            "much", "more", "most", "other", "another"], PartOfSpeech.DET, "DT"⟩,
   ⟨wordIn ["i", "me", "myself"], PartOfSpeech.PRON, "PRP"⟩,
   ⟨wordIn ["you", "yourself", "yourselves"], PartOfSpeech.PRON, "PRP"⟩,
   ⟨wordIn ["he", "him", "himself", "she", "her", "herself", "it", "itself"],
     PartOfSpeech.PRON, "PRP"⟩,
   ⟨wordIn ["we", "us", "ourselves", "they", "them", "themselves"], PartOfSpeech.PRON, "PRP"⟩,
   ⟨wordIn ["who", "whom", "whose", "which", "what", "whoever", "whatever",
            "whichever"], PartOfSpeech.PRON, "WP"⟩,
   ⟨wordIn ["in", "on", "at", "to", "for", "of", "with", "by", "from", "up",
            "about", "into", "through", "during", "before", "after", "above",
            "below", "between", "under", "again", "further", "then", "once"],
     PartOfSpeech.ADP, "IN"⟩,
   ⟨wordIn ["and", "or", "but", "nor", "so", "yet", "for"], PartOfSpeech.CONJ, "CC"⟩,
   ⟨wordIn ["if", "unless", "although", "because", "since", "while", "when",
            "where", "whereas", "whether", "as", "than", "that"], PartOfSpeech.CONJ, "IN"⟩,
   ⟨wordIn ["is", "am", "are", "was", "were", "be", "been", "being"], PartOfSpeech.VERB, "VB"⟩,
   ⟨wordIn ["have", "has", "had", "having"], PartOfSpeech.VERB, "VB"⟩,
   ⟨wordIn ["do", "does", "did", "doing"], PartOfSpeech.VERB, "VB"⟩,
   ⟨wordIn ["will", "would", "shall", "should", "can", "could", "may",
            "might", "must"], PartOfSpeech.VERB, "MD"⟩,
   ⟨endsWithAnyCI ["ing"], PartOfSpeech.VERB, "VBG"⟩,
   ⟨endsWithAnyCI ["ed"], PartOfSpeech.VERB, "VBD"⟩,
   ⟨endsWithAnyCI ["s"], PartOfSpeech.VERB, "VBZ"⟩,
   ⟨endsWithAnyCI ["ful", "less", "able", "ible", "ous", "ive", "al", "ial",
                   "ic", "ical", "ish", "like", "ly", "y", "ary", "ory"],
     PartOfSpeech.ADJ, "JJ"⟩,
   ⟨endsWithAnyCI ["er"], PartOfSpeech.ADJ, "JJR"⟩,
   ⟨endsWithAnyCI ["est"], PartOfSpeech.ADJ, "JJS"⟩,
   ⟨endsWithAnyCI ["ly"], PartOfSpeech.ADV, "RB"⟩,
   ⟨endsWithAnyCI ["tion", "sion", "ness", "ment", "ity", "ism", "ist", "er",
                   "or", "ant", "ent", "ance", "ence", "dom", "hood", "ship",
                   "age"], PartOfSpeech.NOUN, "NN"⟩,
   ⟨wordIn ["oh", "ah", "wow", "ouch", "hey", "hi", "hello", "bye", "oops",
            "ugh", "huh", "hmm", "um", "uh", "well", "yeah", "yes", "no",
            "okay", "ok"], PartOfSpeech.INTJ, "UH"⟩,
   ⟨wordIn ["not", "n't"], PartOfSpeech.PART, "RB"⟩,
   ⟨wordIn ["to"], PartOfSpeech.PART, "TO"⟩,
   ⟨singleCharIn ['@', '#', '$', '%', '&', '*', '+', '=', '<', '>', '~', '^',
                  '|', '\\'], PartOfSpeech.SYM, "SYM"⟩]

/-- `Tokenizer.determinePOS`: curated word map first, then the ordered
pattern cascade, defaulting to NOUN. -/
def determinePOS (text lowerText : Str) : PartOfSpeech × String :=
  match jsObjGet WORD_POS_MAP (strOf lowerText) with
  | some pt => pt
  | none =>
    match POS_PATTERNS.find? (fun p => p.test text) with
    | some p => (p.pos, p.tag)
    | none => (PartOfSpeech.NOUN, "NN")

-- ===========================================================================
-- § Tokenizer: lemmatization (Tokenizer.getLemma of tokenizer.ts)
-- ===========================================================================

/-- The rule loop of `Tokenizer.getLemma`: first applicable rule whose
stem keeps at least 2 characters wins; otherwise fall through. -/
def applyLemmaRules (word : Str) (pos : PartOfSpeech) : List LemmaRule → Str
  | [] => word
  | r :: rs =>
    if r.suffix.data.isSuffixOf word && decide (r.minLength ≤ word.length) then
      if r.pos.elim true (fun l => l.contains pos) then
        let stem := word.take (word.length - r.suffix.data.length) ++ r.replacement.data
        if 2 ≤ stem.length then stem else applyLemmaRules word pos rs
      else applyLemmaRules word pos rs
    else applyLemmaRules word pos rs

/-- `Tokenizer.getLemma`: irregular verb table, irregular plural table, then
the ordered suffix rules. -/
def getLemma (word : Str) (pos : PartOfSpeech) : Str :=
  match jsObjGet IRREGULAR_VERBS (strOf word) with
  | some v => v.data
  | none =>
    match jsObjGet IRREGULAR_PLURALS (strOf word) with
    | some v => v.data
    | none => applyLemmaRules word pos LEMMA_RULES

/-- `Tokenizer.analyzeToken`. -/
def analyzeToken (text : Str) (index : Nat) (startChar endChar : Int) : Token :=
  let lowerText := lowerS text
  let pt := determinePOS text lowerText
  { text := text
    lem := getLemma lowerText pt.1
    pos := pt.1
    tag := pt.2
    isStopWord := TOK_STOP_WORDS.contains (strOf lowerText)
    isPunctuation := pt.1 == PartOfSpeech.PUNCT
    isAlpha := !text.isEmpty && text.all isAsciiLetter
    isDigit := !text.isEmpty && text.all isDigitChar
    index := index
    startChar := startChar
    endChar := endChar }

-- ===========================================================================
-- § Tokenizer: raw-token scan (Tokenizer.splitIntoRawTokens)
-- ===========================================================================

/-- The raw token kind recorded by `splitIntoRawTokens` (numbers are pushed
with type `word`, as in the source). -/
inductive RawType
  | word
  | punct
deriving DecidableEq, Repr

/-- A raw token of `splitIntoRawTokens`. -/
structure RawTok where
  text : Str
  rtype : RawType
deriving DecidableEq, Repr

/-- The decimal/percent continuation of the number alternative
`\d+(?:[.,]\d+)*%?`: consumes `[.,]\d+` groups greedily. Returns the
consumed characters and the remaining input. -/
def numTailF : Nat → Str → Str × Str
  | 0, s => ([], s)
  | fuel + 1, s =>
    match s with
    | sep :: rest =>
      if (sep == '.' || sep == ',') &&
          (match rest with | d :: _ => isDigitChar d | [] => false) then
        let ds := rest.takeWhile isDigitChar
        let (more, rem) := numTailF fuel (rest.dropWhile isDigitChar)
        (sep :: ds ++ more, rem)
      else ([], s)
    | [] => ([], s)

/-- One left-to-right pass of the combined token regex
`([A-Za-z]+(?:'[A-Za-z]+)?)|(\d+(?:[.,]\d+)*%?)|([^\w\s])|(\s+)` of
`Tokenizer.splitIntoRawTokens`: words and numbers are emitted as `word`
tokens, single non-word non-space characters as `punct` tokens, whitespace
runs are consumed silently, and a position where no alternative matches
(exactly the underscore) is skipped, as a JS global regex scan does. -/
def scanTokensF : Nat → Str → List RawTok
  | 0, _ => []
  | fuel + 1, s =>
    match s with
    | [] => []
    | c :: rest =>
      if isAsciiLetter c then
        let w := (c :: rest).takeWhile isAsciiLetter
        let r1 := (c :: rest).dropWhile isAsciiLetter
        match r1 with
        | c2 :: r2 =>
          if c2 == apos &&
              (match r2 with | d :: _ => isAsciiLetter d | [] => false) then
            let w2 := r2.takeWhile isAsciiLetter
            ⟨w ++ c2 :: w2, RawType.word⟩ :: scanTokensF fuel (r2.dropWhile isAsciiLetter)
          else ⟨w, RawType.word⟩ :: scanTokensF fuel r1
        | [] => [⟨w, RawType.word⟩]
      else if isDigitChar c then
        let ds := (c :: rest).takeWhile isDigitChar
        let r1 := (c :: rest).dropWhile isDigitChar
        let tr := numTailF (r1.length + 1) r1
        match tr.2 with
        | p :: r3 =>
          if p == '%' then ⟨ds ++ tr.1 ++ [p], RawType.word⟩ :: scanTokensF fuel r3
          else ⟨ds ++ tr.1, RawType.word⟩ :: scanTokensF fuel tr.2
        | [] => [⟨ds ++ tr.1, RawType.word⟩]
      else if isSpaceChar c then scanTokensF fuel ((c :: rest).dropWhile isSpaceChar)
      else if isWordChar c then scanTokensF fuel rest
      else ⟨[c], RawType.punct⟩ :: scanTokensF fuel rest

/-- `Tokenizer.splitIntoRawTokens`. -/
def splitIntoRawTokens (text : Str) : List RawTok :=
  scanTokensF (text.length + 1) text

-- ===========================================================================
-- § Tokenizer: tokenize (Tokenizer.tokenize of tokenizer.ts)
-- ===========================================================================

/-- The offset-assignment loop of `Tokenizer.tokenize`: each raw token is
located with `text.indexOf(rawToken.text, currentIndex)` and analyzed. -/
def tokenizeGo (text : Str) : List RawTok → Int → Nat → List Token
  | [], _, _ => []
  | r :: rs, currentIndex, idx =>
    let startChar := jsIndexOf text r.text currentIndex
    let endChar := startChar + r.text.length
    analyzeToken r.text idx startChar endChar :: tokenizeGo text rs endChar (idx + 1)

/-- The cache-free body of `Tokenizer.tokenize`. -/
def tokenizeCompute (text : Str) : List Token :=
  tokenizeGo text (splitIntoRawTokens text) 0 0

/-- The caching wrapper shared verbatim by all five engines: key the cache
on `text.substring(0, keyLen)`; on a hit return the cached value; on a miss
compute, and if the cache has reached `maxSize` entries delete the first
(oldest) key — but only when that key is truthy, so the empty-string key is
never deleted (`if (firstKey) this.cache.delete(firstKey)`). -/
def cachedCall (keyLen maxSize : Nat) (compute : Str → α)
    (cache : List (Str × α)) (text : Str) : α × List (Str × α) :=
  let cacheKey := jsSubstring text 0 (keyLen : Int)
  match jsMapGet cache cacheKey with
  | some v => (v, cache)
  | none =>
    let result := compute text
    let cache1 :=
      if maxSize ≤ cache.length then
        match cache.head? with
        | some e => if e.1.isEmpty then cache else jsMapDelete cache e.1
        | none => cache
      else cache
    (result, jsMapSet cache1 cacheKey result)

namespace Tokenizer

/-- `maxCacheSize` of the `Tokenizer` class. -/
def maxCacheSize : Nat := 1000

/-- `Tokenizer.tokenize` with its cache state made explicit (cache key
`text.substring(0, 100)`). -/
def tokenize (cache : List (Str × List Token)) (text : Str) :
    List Token × List (Str × List Token) :=
  cachedCall 100 maxCacheSize tokenizeCompute cache text

end Tokenizer

-- ===========================================================================
-- § Sentiment analyzer: data (src/lib/nlp/sentiment-analyzer.ts)
-- ===========================================================================

/-- One sentiment lexicon entry (`LexiconEntry`): base score in [-5,5],
intensity in [0,1], and associated emotion tags. -/
structure LexiconEntry where
  score : Rat
  intensity : Rat
  emotions : List String
deriving DecidableEq, Repr
/-- Part 1 of the sentiment lexicon table. -/
def SENTIMENT_LEXICON_1 : List (String × LexiconEntry) :=
  [("amazing", LexiconEntry.mk 4 0.9 ["joy", "surprise"]),
   ("awesome", LexiconEntry.mk 4 0.85 ["joy"]),
   ("beautiful", LexiconEntry.mk 3 0.7 ["joy", "love"]),
   ("best", LexiconEntry.mk 4 0.8 ["joy"]),
   ("brilliant", LexiconEntry.mk 4 0.85 ["joy", "surprise"]),
   ("celebrate", LexiconEntry.mk 3 0.75 ["joy"]),
   ("champion", LexiconEntry.mk 3 0.7 ["joy", "pride"]),
   ("charming", LexiconEntry.mk 3 0.65 ["love", "joy"]),
   ("delight", LexiconEntry.mk 4 0.8 ["joy"]),
   ("delightful", LexiconEntry.mk 4 0.8 ["joy"]),
   ("excellent", LexiconEntry.mk 4 0.85 ["joy"]),
   ("exceptional", LexiconEntry.mk 4 0.85 ["joy", "surprise"]),
   ("exciting", LexiconEntry.mk 3 0.75 ["joy", "anticipation"]),
   ("extraordinary", LexiconEntry.mk 4 0.85 ["surprise", "joy"]),
   ("fabulous", LexiconEntry.mk 4 0.85 ["joy"]),
   ("fantastic", LexiconEntry.mk 4 0.85 ["joy"]),
   ("favorite", LexiconEntry.mk 3 0.7 ["love", "joy"]),
   ("genius", LexiconEntry.mk 4 0.85 ["admiration", "surprise"]),
   ("glorious", LexiconEntry.mk 4 0.8 ["joy", "admiration"]),
   ("gorgeous", LexiconEntry.mk 4 0.8 ["love", "joy"]),
   ("great", LexiconEntry.mk 3 0.7 ["joy"]),
   ("happy", LexiconEntry.mk 3 0.75 ["joy"]),
   ("incredible", LexiconEntry.mk 4 0.85 ["surprise", "joy"]),
   ("inspiring", LexiconEntry.mk 3 0.75 ["admiration", "joy"]),
   ("legendary", LexiconEntry.mk 4 0.85 ["admiration", "surprise"]),
   ("love", LexiconEntry.mk 4 0.9 ["love", "joy"]),
   ("lovely", LexiconEntry.mk 3 0.7 ["love", "joy"]),
   ("magnificent", LexiconEntry.mk 4 0.85 ["admiration", "joy"]),
   ("marvelous", LexiconEntry.mk 4 0.85 ["joy", "surprise"]),
   ("masterpiece", LexiconEntry.mk 5 0.95 ["admiration", "joy"]),
   ("outstanding", LexiconEntry.mk 4 0.85 ["joy", "admiration"]),
   ("perfect", LexiconEntry.mk 5 0.95 ["joy"]),
   ("phenomenal", LexiconEntry.mk 4 0.9 ["surprise", "joy"]),
   ("remarkable", LexiconEntry.mk 3 0.75 ["surprise", "joy"]),
   ("sensational", LexiconEntry.mk 4 0.85 ["surprise", "joy"]),
   ("spectacular", LexiconEntry.mk 4 0.85 ["surprise", "joy"]),
   ("stunning", LexiconEntry.mk 4 0.85 ["surprise", "joy"]),
   ("sublime", LexiconEntry.mk 4 0.85 ["joy", "admiration"]),
   ("superb", LexiconEntry.mk 4 0.85 ["joy"]),
   ("superior", LexiconEntry.mk 3 0.7 ["pride", "joy"]),
   ("terrific", LexiconEntry.mk 4 0.8 ["joy"]),
   ("thrilled", LexiconEntry.mk 4 0.85 ["joy", "excitement"]),
   ("triumph", LexiconEntry.mk 4 0.8 ["joy", "pride"]),
   ("unbelievable", LexiconEntry.mk 4 0.85 ["surprise"]),
   ("victory", LexiconEntry.mk 3 0.75 ["joy", "pride"]),
   ("viral", LexiconEntry.mk 3 0.7 ["excitement", "joy"]),
   ("win", LexiconEntry.mk 3 0.7 ["joy", "pride"]),
   ("winner", LexiconEntry.mk 3 0.7 ["joy", "pride"]),
   ("wonderful", LexiconEntry.mk 4 0.85 ["joy"]),
   ("wow", LexiconEntry.mk 3 0.8 ["surprise", "joy"]),
   ("accept", LexiconEntry.mk 1 0.4 ["trust"]),
   ("accomplished", LexiconEntry.mk 2 0.6 ["pride", "joy"]),
   ("achievement", LexiconEntry.mk 2 0.6 ["pride"]),
   ("admire", LexiconEntry.mk 2 0.6 ["admiration"]),
   ("agree", LexiconEntry.mk 1 0.4 ["trust"])]

/-- Part 2 of the sentiment lexicon table. -/
def SENTIMENT_LEXICON_2 : List (String × LexiconEntry) :=
  [("amusing", LexiconEntry.mk 2 0.5 ["joy", "amusement"]),
   ("appreciate", LexiconEntry.mk 2 0.6 ["gratitude"]),
   ("approval", LexiconEntry.mk 2 0.5 ["trust"]),
   ("attractive", LexiconEntry.mk 2 0.5 ["love"]),
   ("benefit", LexiconEntry.mk 2 0.5 ["joy"]),
   ("calm", LexiconEntry.mk 2 0.5 ["serenity"]),
   ("capable", LexiconEntry.mk 2 0.5 ["trust"]),
   ("care", LexiconEntry.mk 2 0.6 ["love"]),
   ("comfortable", LexiconEntry.mk 2 0.5 ["serenity"]),
   ("confidence", LexiconEntry.mk 2 0.6 ["trust"]),
   ("cool", LexiconEntry.mk 2 0.5 ["joy"]),
   ("creative", LexiconEntry.mk 2 0.6 ["joy"]),
   ("curious", LexiconEntry.mk 1 0.5 ["anticipation"]),
   ("easy", LexiconEntry.mk 1 0.4 ["serenity"]),
   ("effective", LexiconEntry.mk 2 0.5 ["trust"]),
   ("efficient", LexiconEntry.mk 2 0.5 ["trust"]),
   ("elegant", LexiconEntry.mk 2 0.6 ["admiration"]),
   ("encourage", LexiconEntry.mk 2 0.6 ["trust", "joy"]),
   ("enjoy", LexiconEntry.mk 2 0.6 ["joy"]),
   ("entertaining", LexiconEntry.mk 2 0.5 ["joy", "amusement"]),
   ("enthusiastic", LexiconEntry.mk 2 0.7 ["joy", "anticipation"]),
   ("free", LexiconEntry.mk 2 0.5 ["joy"]),
   ("fresh", LexiconEntry.mk 1 0.4 ["joy"]),
   ("friendly", LexiconEntry.mk 2 0.5 ["love", "trust"]),
   ("fun", LexiconEntry.mk 2 0.6 ["joy"]),
   ("generous", LexiconEntry.mk 2 0.6 ["love"]),
   ("glad", LexiconEntry.mk 2 0.6 ["joy"]),
   ("good", LexiconEntry.mk 2 0.5 ["joy"]),
   ("grateful", LexiconEntry.mk 2 0.7 ["gratitude"]),
   ("growth", LexiconEntry.mk 2 0.5 ["anticipation"]),
   ("helpful", LexiconEntry.mk 2 0.5 ["trust"]),
   ("honest", LexiconEntry.mk 2 0.5 ["trust"]),
   ("hope", LexiconEntry.mk 2 0.6 ["anticipation", "optimism"]),
   ("improve", LexiconEntry.mk 2 0.5 ["optimism"]),
   ("innovative", LexiconEntry.mk 2 0.6 ["surprise", "admiration"]),
   ("insight", LexiconEntry.mk 2 0.5 ["trust"]),
   ("intelligent", LexiconEntry.mk 2 0.5 ["admiration"]),
   ("interesting", LexiconEntry.mk 2 0.5 ["anticipation"]),
   ("kind", LexiconEntry.mk 2 0.6 ["love"]),
   ("laugh", LexiconEntry.mk 2 0.6 ["joy", "amusement"]),
   ("learn", LexiconEntry.mk 1 0.4 ["anticipation"]),
   ("like", LexiconEntry.mk 2 0.5 ["joy"]),
   ("lucky", LexiconEntry.mk 2 0.5 ["joy"]),
   ("motivated", LexiconEntry.mk 2 0.6 ["anticipation"]),
   ("natural", LexiconEntry.mk 1 0.4 ["serenity"]),
   ("nice", LexiconEntry.mk 2 0.5 ["joy"]),
   ("opportunity", LexiconEntry.mk 2 0.5 ["anticipation"]),
   ("optimistic", LexiconEntry.mk 2 0.6 ["optimism"]),
   ("peaceful", LexiconEntry.mk 2 0.5 ["serenity"]),
   ("pleasant", LexiconEntry.mk 2 0.5 ["joy"]),
   ("pleased", LexiconEntry.mk 2 0.6 ["joy"]),
   ("popular", LexiconEntry.mk 2 0.5 ["joy"]),
   ("positive", LexiconEntry.mk 2 0.5 ["optimism"]),
   ("powerful", LexiconEntry.mk 2 0.6 ["admiration"]),
   ("pretty", LexiconEntry.mk 2 0.5 ["love"])]

/-- Part 3 of the sentiment lexicon table. -/
def SENTIMENT_LEXICON_3 : List (String × LexiconEntry) :=
  [("progress", LexiconEntry.mk 2 0.5 ["optimism"]),
   ("proud", LexiconEntry.mk 2 0.7 ["pride"]),
   ("quality", LexiconEntry.mk 2 0.5 ["trust"]),
   ("recommend", LexiconEntry.mk 2 0.5 ["trust"]),
   ("relax", LexiconEntry.mk 2 0.5 ["serenity"]),
   ("reliable", LexiconEntry.mk 2 0.5 ["trust"]),
   ("respect", LexiconEntry.mk 2 0.6 ["admiration"]),
   ("safe", LexiconEntry.mk 2 0.5 ["trust", "serenity"]),
   ("satisfied", LexiconEntry.mk 2 0.6 ["joy"]),
   ("secure", LexiconEntry.mk 2 0.5 ["trust"]),
   ("simple", LexiconEntry.mk 1 0.4 ["serenity"]),
   ("smart", LexiconEntry.mk 2 0.5 ["admiration"]),
   ("smile", LexiconEntry.mk 2 0.6 ["joy"]),
   ("smooth", LexiconEntry.mk 1 0.4 ["serenity"]),
   ("special", LexiconEntry.mk 2 0.5 ["joy", "love"]),
   ("strong", LexiconEntry.mk 2 0.5 ["trust"]),
   ("succeed", LexiconEntry.mk 2 0.6 ["joy", "pride"]),
   ("success", LexiconEntry.mk 3 0.7 ["joy", "pride"]),
   ("support", LexiconEntry.mk 2 0.5 ["trust"]),
   ("sweet", LexiconEntry.mk 2 0.5 ["love", "joy"]),
   ("thank", LexiconEntry.mk 2 0.6 ["gratitude"]),
   ("trust", LexiconEntry.mk 2 0.6 ["trust"]),
   ("unique", LexiconEntry.mk 2 0.5 ["surprise"]),
   ("useful", LexiconEntry.mk 2 0.5 ["trust"]),
   ("valuable", LexiconEntry.mk 2 0.5 ["trust"]),
   ("warm", LexiconEntry.mk 2 0.5 ["love"]),
   ("welcome", LexiconEntry.mk 2 0.5 ["trust", "joy"]),
   ("worth", LexiconEntry.mk 2 0.5 ["trust"]),
   ("annoy", LexiconEntry.mk (-2) 0.5 ["anger"]),
   ("anxious", LexiconEntry.mk (-2) 0.6 ["fear", "anticipation"]),
   ("bad", LexiconEntry.mk (-2) 0.5 ["sadness"]),
   ("bored", LexiconEntry.mk (-2) 0.4 ["sadness"]),
   ("boring", LexiconEntry.mk (-2) 0.4 ["sadness"]),
   ("concern", LexiconEntry.mk (-1) 0.4 ["fear"]),
   ("confused", LexiconEntry.mk (-1) 0.4 ["surprise"]),
   ("criticism", LexiconEntry.mk (-2) 0.5 ["anger"]),
   ("delay", LexiconEntry.mk (-1) 0.4 ["anger"]),
   ("difficult", LexiconEntry.mk (-1) 0.4 ["fear"]),
   ("disappoint", LexiconEntry.mk (-2) 0.6 ["sadness"]),
   ("disappointed", LexiconEntry.mk (-2) 0.6 ["sadness"]),
   ("dislike", LexiconEntry.mk (-2) 0.5 ["disgust"]),
   ("doubt", LexiconEntry.mk (-1) 0.4 ["fear"]),
   ("dull", LexiconEntry.mk (-1) 0.3 ["sadness"]),
   ("empty", LexiconEntry.mk (-1) 0.4 ["sadness"]),
   ("exhausted", LexiconEntry.mk (-2) 0.5 ["sadness"]),
   ("fail", LexiconEntry.mk (-2) 0.6 ["sadness"]),
   ("failure", LexiconEntry.mk (-2) 0.6 ["sadness"]),
   ("fault", LexiconEntry.mk (-2) 0.5 ["anger"]),
   ("fear", LexiconEntry.mk (-2) 0.7 ["fear"]),
   ("frustrated", LexiconEntry.mk (-2) 0.6 ["anger"]),
   ("frustrating", LexiconEntry.mk (-2) 0.6 ["anger"]),
   ("guilty", LexiconEntry.mk (-2) 0.6 ["sadness", "fear"]),
   ("hard", LexiconEntry.mk (-1) 0.3 ["fear"]),
   ("ignore", LexiconEntry.mk (-1) 0.4 ["sadness"]),
   ("impatient", LexiconEntry.mk (-1) 0.4 ["anger"])]

/-- Part 4 of the sentiment lexicon table. -/
def SENTIMENT_LEXICON_4 : List (String × LexiconEntry) :=
  [("jealous", LexiconEntry.mk (-2) 0.6 ["anger", "sadness"]),
   ("lack", LexiconEntry.mk (-1) 0.4 ["sadness"]),
   ("late", LexiconEntry.mk (-1) 0.3 ["anger"]),
   ("lazy", LexiconEntry.mk (-1) 0.4 ["disgust"]),
   ("limit", LexiconEntry.mk (-1) 0.3 ["sadness"]),
   ("lonely", LexiconEntry.mk (-2) 0.6 ["sadness"]),
   ("lose", LexiconEntry.mk (-2) 0.6 ["sadness"]),
   ("loss", LexiconEntry.mk (-2) 0.6 ["sadness"]),
   ("mad", LexiconEntry.mk (-2) 0.6 ["anger"]),
   ("mess", LexiconEntry.mk (-1) 0.4 ["disgust"]),
   ("miss", LexiconEntry.mk (-1) 0.4 ["sadness"]),
   ("mistake", LexiconEntry.mk (-2) 0.5 ["sadness"]),
   ("negative", LexiconEntry.mk (-2) 0.5 ["sadness"]),
   ("nervous", LexiconEntry.mk (-2) 0.5 ["fear"]),
   ("problem", LexiconEntry.mk (-2) 0.5 ["sadness"]),
   ("regret", LexiconEntry.mk (-2) 0.6 ["sadness"]),
   ("reject", LexiconEntry.mk (-2) 0.6 ["sadness"]),
   ("risk", LexiconEntry.mk (-1) 0.4 ["fear"]),
   ("sad", LexiconEntry.mk (-2) 0.7 ["sadness"]),
   ("scare", LexiconEntry.mk (-2) 0.6 ["fear"]),
   ("slow", LexiconEntry.mk (-1) 0.3 ["anger"]),
   ("sorry", LexiconEntry.mk (-1) 0.5 ["sadness"]),
   ("stress", LexiconEntry.mk (-2) 0.6 ["fear", "anger"]),
   ("struggle", LexiconEntry.mk (-2) 0.5 ["sadness", "fear"]),
   ("stuck", LexiconEntry.mk (-1) 0.4 ["sadness"]),
   ("tired", LexiconEntry.mk (-1) 0.4 ["sadness"]),
   ("trouble", LexiconEntry.mk (-2) 0.5 ["fear"]),
   ("ugly", LexiconEntry.mk (-2) 0.5 ["disgust"]),
   ("uncomfortable", LexiconEntry.mk (-2) 0.4 ["fear"]),
   ("unfair", LexiconEntry.mk (-2) 0.6 ["anger"]),
   ("unhappy", LexiconEntry.mk (-2) 0.6 ["sadness"]),
   ("upset", LexiconEntry.mk (-2) 0.6 ["anger", "sadness"]),
   ("useless", LexiconEntry.mk (-2) 0.5 ["sadness"]),
   ("wait", LexiconEntry.mk (-1) 0.3 ["anticipation"]),
   ("weak", LexiconEntry.mk (-1) 0.4 ["fear"]),
   ("weird", LexiconEntry.mk (-1) 0.3 ["surprise", "disgust"]),
   ("worry", LexiconEntry.mk (-2) 0.6 ["fear"]),
   ("wrong", LexiconEntry.mk (-2) 0.5 ["sadness"]),
   ("abuse", LexiconEntry.mk (-4) 0.9 ["anger", "fear"]),
   ("angry", LexiconEntry.mk (-3) 0.8 ["anger"]),
   ("awful", LexiconEntry.mk (-4) 0.85 ["disgust"]),
   ("betray", LexiconEntry.mk (-4) 0.9 ["anger", "sadness"]),
   ("catastrophe", LexiconEntry.mk (-4) 0.9 ["fear", "sadness"]),
   ("cheat", LexiconEntry.mk (-3) 0.8 ["anger", "disgust"]),
   ("corrupt", LexiconEntry.mk (-3) 0.8 ["anger", "disgust"]),
   ("cruel", LexiconEntry.mk (-4) 0.85 ["anger", "fear"]),
   ("damage", LexiconEntry.mk (-3) 0.7 ["fear", "anger"]),
   ("danger", LexiconEntry.mk (-3) 0.8 ["fear"]),
   ("dangerous", LexiconEntry.mk (-3) 0.8 ["fear"]),
   ("dead", LexiconEntry.mk (-3) 0.8 ["sadness", "fear"]),
   ("death", LexiconEntry.mk (-4) 0.9 ["sadness", "fear"]),
   ("destroy", LexiconEntry.mk (-4) 0.85 ["anger", "fear"]),
   ("disaster", LexiconEntry.mk (-4) 0.9 ["fear", "sadness"]),
   ("disgust", LexiconEntry.mk (-3) 0.8 ["disgust"]),
   ("disgusting", LexiconEntry.mk (-4) 0.85 ["disgust"])]

/-- Part 5 of the sentiment lexicon table. -/
def SENTIMENT_LEXICON_5 : List (String × LexiconEntry) :=
  [("dread", LexiconEntry.mk (-3) 0.8 ["fear"]),
   ("enemy", LexiconEntry.mk (-3) 0.7 ["anger", "fear"]),
   ("evil", LexiconEntry.mk (-4) 0.9 ["fear", "anger"]),
   ("fake", LexiconEntry.mk (-3) 0.7 ["anger", "disgust"]),
   ("fraud", LexiconEntry.mk (-4) 0.85 ["anger", "disgust"]),
   ("grief", LexiconEntry.mk (-4) 0.9 ["sadness"]),
   ("hate", LexiconEntry.mk (-4) 0.9 ["anger"]),
   ("horrible", LexiconEntry.mk (-4) 0.85 ["fear", "disgust"]),
   ("horrify", LexiconEntry.mk (-4) 0.9 ["fear"]),
   ("horror", LexiconEntry.mk (-4) 0.9 ["fear"]),
   ("hurt", LexiconEntry.mk (-3) 0.7 ["sadness", "anger"]),
   ("idiot", LexiconEntry.mk (-3) 0.7 ["anger", "disgust"]),
   ("insult", LexiconEntry.mk (-3) 0.7 ["anger"]),
   ("kill", LexiconEntry.mk (-4) 0.9 ["fear", "anger"]),
   ("liar", LexiconEntry.mk (-3) 0.8 ["anger", "disgust"]),
   ("lie", LexiconEntry.mk (-3) 0.7 ["anger", "disgust"]),
   ("miserable", LexiconEntry.mk (-4) 0.85 ["sadness"]),
   ("murder", LexiconEntry.mk (-5) 1.0 ["fear", "anger"]),
   ("nightmare", LexiconEntry.mk (-4) 0.85 ["fear"]),
   ("pain", LexiconEntry.mk (-3) 0.7 ["sadness", "fear"]),
   ("pathetic", LexiconEntry.mk (-3) 0.7 ["disgust", "sadness"]),
   ("poison", LexiconEntry.mk (-3) 0.8 ["fear", "disgust"]),
   ("rage", LexiconEntry.mk (-4) 0.9 ["anger"]),
   ("ruin", LexiconEntry.mk (-3) 0.8 ["sadness", "anger"]),
   ("scam", LexiconEntry.mk (-4) 0.85 ["anger", "disgust"]),
   ("shame", LexiconEntry.mk (-3) 0.8 ["sadness"]),
   ("shit", LexiconEntry.mk (-3) 0.7 ["anger", "disgust"]),
   ("shock", LexiconEntry.mk (-3) 0.8 ["surprise", "fear"]),
   ("sick", LexiconEntry.mk (-2) 0.6 ["sadness", "disgust"]),
   ("spam", LexiconEntry.mk (-3) 0.6 ["anger", "disgust"]),
   ("stupid", LexiconEntry.mk (-3) 0.7 ["anger", "disgust"]),
   ("suffer", LexiconEntry.mk (-3) 0.8 ["sadness"]),
   ("terrible", LexiconEntry.mk (-4) 0.85 ["fear", "sadness"]),
   ("terrify", LexiconEntry.mk (-4) 0.9 ["fear"]),
   ("terror", LexiconEntry.mk (-4) 0.9 ["fear"]),
   ("threat", LexiconEntry.mk (-3) 0.8 ["fear"]),
   ("toxic", LexiconEntry.mk (-3) 0.8 ["disgust", "fear"]),
   ("tragedy", LexiconEntry.mk (-4) 0.9 ["sadness"]),
   ("tragic", LexiconEntry.mk (-4) 0.85 ["sadness"]),
   ("trauma", LexiconEntry.mk (-4) 0.9 ["fear", "sadness"]),
   ("victim", LexiconEntry.mk (-3) 0.7 ["sadness", "fear"]),
   ("violence", LexiconEntry.mk (-4) 0.9 ["fear", "anger"]),
   ("violent", LexiconEntry.mk (-4) 0.85 ["fear", "anger"]),
   ("waste", LexiconEntry.mk (-2) 0.5 ["sadness", "anger"]),
   ("worst", LexiconEntry.mk (-4) 0.85 ["sadness", "anger"]),
   ("worthless", LexiconEntry.mk (-3) 0.8 ["sadness"])]

/-- The sentiment lexicon (`SENTIMENT_LEXICON` of sentiment-analyzer.ts),
assembled from its parts in source order. -/
def SENTIMENT_LEXICON : List (String × LexiconEntry) :=
  SENTIMENT_LEXICON_1 ++ SENTIMENT_LEXICON_2 ++ SENTIMENT_LEXICON_3 ++ SENTIMENT_LEXICON_4 ++ SENTIMENT_LEXICON_5

/-- Intensifier multipliers (`INTENSIFIERS`). -/
def INTENSIFIERS : List (String × Rat) :=
  [("absolutely", 1.5),
   ("completely", 1.4),
   ("definitely", 1.3),
   ("extremely", 1.5),
   ("greatly", 1.3),
   ("highly", 1.3),
   ("incredibly", 1.5),
   ("insanely", 1.6),
   ("literally", 1.2),
   ("particularly", 1.2),
   ("perfectly", 1.4),
   ("purely", 1.3),
   ("quite", 1.2),
   ("really", 1.3),
   ("remarkably", 1.3),
   ("so", 1.3),
   ("super", 1.4),
   ("totally", 1.4),
   ("truly", 1.3),
   ("utterly", 1.5),
   ("very", 1.3)]

/-- Diminisher multipliers (`DIMINISHERS`). -/
def DIMINISHERS : List (String × Rat) :=
  [("a bit", 0.6),
   ("a little", 0.6),
   ("barely", 0.4),
   ("fairly", 0.7),
   ("hardly", 0.3),
   ("kind of", 0.6),
   ("kinda", 0.6),
   ("less", 0.6),
   ("marginally", 0.5),
   ("merely", 0.5),
   ("mildly", 0.6),
   ("moderately", 0.7),
   ("only", 0.7),
   ("partially", 0.6),
   ("pretty", 0.8),
   ("rather", 0.7),
   ("slightly", 0.5),
   ("somewhat", 0.6),
   ("sort of", 0.6),
   ("sorta", 0.6)]

/-- The negation word set (`NEGATIONS`). -/
def NEGATIONS : List String :=
  ["not", "n't", "no", "never", "neither", "nobody", "nothing", "nowhere", "none", "without", "hardly", "barely", "scarcely", "seldom", "rarely", "don't", "doesn't", "didn't", "won't", "wouldn't", "couldn't", "shouldn't", "can't", "cannot"]

/-- The sixteen values of the `EmotionCategory` union of
sentiment-analyzer.ts. -/
def EMOTION_CATEGORIES : List String :=
  ["joy", "sadness", "anger", "fear", "surprise", "disgust", "trust",
   "anticipation", "love", "optimism", "pride", "admiration", "gratitude",
   "serenity", "amusement", "excitement"]

/-- The `SentimentScore` record of the shared types. -/
structure SentimentScore where
  overall : Rat
  positive : Rat
  negative : Rat
  neutral : Rat
  confidence : Rat
deriving DecidableEq, Repr

/-- The `EmotionAnalysis` record; `primary` is a plain string because the
source casts whatever string it computed (including `'neutral'`) to
`EmotionCategory`. -/
structure EmotionAnalysis where
  primary : String
  secondary : Option String
  emotions : List (String × Rat)
  intensity : Rat
  confidence : Rat
deriving Repr

-- ===========================================================================
-- § Sentiment analyzer: analyzeTokens (SentimentAnalyzer.analyzeTokens)
-- ===========================================================================

/-- The loop state of `SentimentAnalyzer.analyzeTokens`. -/
structure SentState where
  totalScore : Rat
  positiveScore : Rat
  negativeScore : Rat
  wordCount : Nat
  sentimentWordCount : Nat
  currentIntensifier : Rat
  negationActive : Bool
  negationScope : Int
deriving Repr

/-- Initial loop state of `analyzeTokens`. -/
def initSentState : SentState := ⟨0, 0, 0, 0, 0, 1, false, 0⟩

/-- The tail of one `analyzeTokens` iteration (lexicon hit, word count and
negation-scope bookkeeping), reached when the token was not a negation,
intensifier, or diminisher. -/
def sentMain (st : SentState) (token : Token) (lem : Str) : SentState :=
  let st1 :=
    match jsObjGet SENTIMENT_LEXICON (strOf lem) with
    | some entry =>
      let score0 := entry.score * entry.intensity * st.currentIntensifier
      let score :=
        if st.negationActive && decide (0 < st.negationScope) then score0 * (-(1/2 : Rat))
        else score0
      { st with
        totalScore := st.totalScore + score
        positiveScore := if 0 < score then st.positiveScore + score else st.positiveScore
        negativeScore := if 0 < score then st.negativeScore else st.negativeScore + |score|
        sentimentWordCount := st.sentimentWordCount + 1
        currentIntensifier := 1 }
    | none => st
  let st2 :=
    if token.isAlpha && !token.isStopWord then { st1 with wordCount := st1.wordCount + 1 }
    else st1
  if st2.negationActive && token.isAlpha then
    let ns := st2.negationScope - 1
    if ns ≤ 0 then { st2 with negationScope := ns, negationActive := false }
    else { st2 with negationScope := ns }
  else st2

/-- One full iteration of the `analyzeTokens` loop (the `continue` branches
for negations, intensifiers and diminishers included). -/
def sentStep (st : SentState) (token : Token) : SentState :=
  let lem := lowerS token.lem
  if NEGATIONS.contains (strOf lem) || NEGATIONS.contains (strOf (lowerS token.text)) then
    { st with negationActive := true, negationScope := 3 }
  else if jsTruthyNum (jsObjGet INTENSIFIERS (strOf lem)) then
    { st with currentIntensifier := (jsObjGet INTENSIFIERS (strOf lem)).getD 0 }
  else if jsTruthyNum (jsObjGet DIMINISHERS (strOf lem)) then
    { st with currentIntensifier := (jsObjGet DIMINISHERS (strOf lem)).getD 0 }
  else sentMain st token lem

/-- `SentimentAnalyzer.analyzeTokens`: run the loop, then normalize by
`sentimentWordCount × 5` and clamp into the documented ranges. -/
def analyzeTokens (tokens : List Token) : SentimentScore :=
  let st := tokens.foldl sentStep initSentState
  let normalizer := max st.sentimentWordCount 1
  let maxPossibleScore : Rat := (normalizer : Rat) * 5
  let normalizedTotal := st.totalScore / maxPossibleScore
  let normalizedPositive := st.positiveScore / maxPossibleScore
  let normalizedNegative := st.negativeScore / maxPossibleScore
  let totalSentiment := normalizedPositive + normalizedNegative
  let neutral := max 0 (1 - totalSentiment)
  let confidence := min ((st.sentimentWordCount : Rat) / ((max st.wordCount 1 : Nat) : Rat)) 1
  { overall := max (-1) (min 1 normalizedTotal)
    positive := min 1 normalizedPositive
    negative := min 1 normalizedNegative
    neutral := min 1 neutral
    confidence := confidence }

namespace SentimentAnalyzer

/-- `maxCacheSize` of the `SentimentAnalyzer` class. -/
def maxCacheSize : Nat := 1000

/-- The cache-free body of `SentimentAnalyzer.analyze`. -/
def analyzeCompute (text : Str) : SentimentScore :=
  analyzeTokens (tokenizeCompute text)

/-- `SentimentAnalyzer.analyze` with its cache state made explicit (cache
key `text.substring(0, 100)`). -/
def analyze (cache : List (Str × SentimentScore)) (text : Str) :
    SentimentScore × List (Str × SentimentScore) :=
  cachedCall 100 maxCacheSize analyzeCompute cache text

end SentimentAnalyzer

-- ===========================================================================
-- § Sentiment analyzer: analyzeEmotions
-- ===========================================================================

/-- The tally state of `analyzeEmotions`: per-emotion occurrence counts,
per-emotion intensity lists (both in first-encounter order, as JS object
keys are), and the running intensity total. -/
structure EmoState where
  counts : List (String × Nat)
  intens : List (String × List Rat)
  total : Rat
deriving Repr

/-- One token of the `analyzeEmotions` tally loop. -/
def emoStep (st : EmoState) (token : Token) : EmoState :=
  let lem := lowerS token.lem
  match jsObjGet SENTIMENT_LEXICON (strOf lem) with
  | some entry =>
    entry.emotions.foldl
      (fun st2 emotion =>
        { counts := jsMapSet st2.counts emotion ((jsMapGet st2.counts emotion).getD 0 + 1)
          intens := jsMapSet st2.intens emotion
            ((jsMapGet st2.intens emotion).getD [] ++ [entry.intensity])
          total := st2.total + entry.intensity })
      st
  | none => st

/-- `SentimentAnalyzer.analyzeEmotions`: tally emotion tags over the tokens,
sort by count (descending, stable), take the top two as primary/secondary
(the primary falling back to the string `'neutral'`), score the eight base
emotions, normalize by the maximum, and attach intensity and confidence. -/
def analyzeEmotionsCompute (text : Str) : EmotionAnalysis :=
  let tokens := tokenizeCompute text
  let st := tokens.foldl emoStep ⟨[], [], 0⟩
  let sortedEmotions := jsSortBy (fun a b => decide (b.2 < a.2)) st.counts
  let primary :=
    match sortedEmotions.head? with
    | some e => if e.1 = "" then "neutral" else e.1
    | none => "neutral"
  let secondary := (sortedEmotions.drop 1).head?.map (·.1)
  let emotions0 : List (String × Rat) :=
    [("joy", 0), ("sadness", 0), ("anger", 0), ("fear", 0), ("surprise", 0),
     ("disgust", 0), ("trust", 0), ("anticipation", 0)]
  let nDistinct := max st.intens.length 1
  let emotions1 := st.intens.foldl
    (fun em p =>
      if (jsMapGet em p.1).isSome then
        let avg := (p.2.foldl (· + ·) 0) / (p.2.length : Rat)
        jsMapSet em p.1 (avg * ((p.2.length : Rat) / (nDistinct : Rat)))
      else em)
    emotions0
  let maxEmotion := emotions1.foldl (fun m p => max m p.2) (1/100 : Rat)
  let emotions2 := emotions1.map (fun p => (p.1, p.2 / maxEmotion))
  let alphaCount := (tokens.filter (·.isAlpha)).length
  let intensity := st.total / ((max alphaCount 1 : Nat) : Rat)
  { primary := primary
    secondary := secondary
    emotions := emotions2
    intensity := min 1 intensity
    confidence := min 1 ((st.counts.length : Rat) / 5) }

-- ===========================================================================
-- § Named entity recognizer (named-entity-recognizer.ts)
-- ===========================================================================

/-- The `EntityType` union of the shared types. -/
inductive EntityType
  | PERSON | ORGANIZATION | LOCATION | PRODUCT | DATE | TIME | MONEY
  | PERCENT | EVENT | URL | EMAIL | HASHTAG | MENTION
deriving DecidableEq, Repr

/-- The `NamedEntity` record (the source's `type` field is `etype` here). -/
structure NamedEntity where
  text : Str
  etype : EntityType
  startChar : Int
  endChar : Int
  confidence : Rat
deriving DecidableEq, Repr

namespace NamedEntityRecognizer

/-- The sort comparator of `deduplicateEntities` as its strict order: by
start position, then by descending span length. -/
def dedupSortLt (a b : NamedEntity) : Bool :=
  if a.startChar ≠ b.startChar then decide (a.startChar < b.startChar)
  else decide (b.endChar - b.startChar < a.endChar - a.startChar)

/-- The greedy keep loop of `deduplicateEntities`: keep a candidate only if
its start is at or past the end of the last kept candidate, and drop
near-duplicates (same text and type, start offsets within 5). -/
def dedupGo : List NamedEntity → List NamedEntity → Int → List NamedEntity
  | [], acc, _ => acc
  | e :: rest, acc, lastEnd =>
    if e.startChar < lastEnd then dedupGo rest acc lastEnd
    else
      match acc.find? (fun x =>
        x.text == e.text && x.etype == e.etype &&
          decide (|x.startChar - e.startChar| < 5)) with
      | some _ => dedupGo rest acc lastEnd
      | none => dedupGo rest (acc ++ [e]) e.endChar

/-- `NamedEntityRecognizer.deduplicateEntities`. -/
def deduplicateEntities (entities : List NamedEntity) : List NamedEntity :=
  dedupGo (jsSortBy dedupSortLt entities) [] (-1)

/-- `maxCacheSize` of the `NamedEntityRecognizer` class. -/
def maxCacheSize : Nat := 500

/-- The cache-free body of `recognize`: the two candidate-extraction passes
(`extractPatternEntities` and `extractTokenEntities`) are abstracted as one
candidate-pool function, and their pooled output is deduplicated; the
claims in scope hold for every candidate pool. -/
def recognizeCompute (extractCandidates : Str → List NamedEntity)
    (text : Str) : List NamedEntity :=
  deduplicateEntities (extractCandidates text)

/-- `NamedEntityRecognizer.recognize` with its cache state made explicit
(cache key `text.substring(0, 150)`). -/
def recognize (extractCandidates : Str → List NamedEntity)
    (cache : List (Str × List NamedEntity)) (text : Str) :
    List NamedEntity × List (Str × List NamedEntity) :=
  cachedCall 150 maxCacheSize (recognizeCompute extractCandidates) cache text

end NamedEntityRecognizer

-- ===========================================================================
-- § Sentence splitter: data (sentence-splitter.ts)
-- ===========================================================================
/-- `ABBREVIATIONS.titles` of sentence-splitter.ts. -/
def ABBREV_TITLES : List String :=
  ["mr", "mrs", "ms", "dr", "prof", "sr", "jr", "rev", "hon", "gov", "pres", "gen", "col", "lt", "sgt", "cpl", "pvt", "adm", "capt", "cmdr", "maj", "rep", "sen", "amb", "treas", "sec", "atty", "supt"]

/-- `ABBREVIATIONS.academic`. -/
def ABBREV_ACADEMIC : List String :=
  ["ph", "phd", "md", "ba", "bs", "ma", "mba", "jd", "llb", "llm", "ed", "edd", "dds", "dvm", "rn", "esq", "cpa", "pe", "ra"]

/-- `ABBREVIATIONS.months`. -/
def ABBREV_MONTHS : List String :=
  ["jan", "feb", "mar", "apr", "jun", "jul", "aug", "sep", "sept", "oct", "nov", "dec"]

/-- `ABBREVIATIONS.states`. -/
def ABBREV_STATES : List String :=
  ["ala", "ariz", "ark", "calif", "colo", "conn", "del", "fla", "ill", "ind", "kans", "mass", "mich", "minn", "miss", "mont", "nebr", "nev", "okla", "oreg", "penn", "tenn", "tex", "wash", "wisc", "wyo"]

/-- `ABBREVIATIONS.common`. -/
def ABBREV_COMMON : List String :=
  ["etc", "vs", "viz", "al", "eg", "ie", "cf", "approx", "dept", "est", "min", "max", "misc", "no", "nos", "op", "pp", "re", "ref", "tel", "temp", "vet", "vol", "vols", "yr", "yrs", "fig", "figs", "inc", "corp", "ltd", "co", "bros", "assn", "assoc", "natl", "intl", "govt"]

/-- `ABBREVIATIONS.units`. -/
def ABBREV_UNITS : List String :=
  ["oz", "lb", "lbs", "kg", "km", "cm", "mm", "ml", "mg", "ft", "yd", "mi", "hr", "hrs", "min", "mins", "sec", "secs", "cal", "sq", "cu"]

/-- The positive word list of `calculateBasicSentiment`. -/
def BASIC_POSITIVE_WORDS : List String :=
  ["good", "great", "excellent", "amazing", "wonderful", "fantastic", "awesome", "best", "love", "happy", "beautiful", "perfect", "incredible", "brilliant", "outstanding", "superb", "magnificent", "exceptional", "positive", "success", "win", "winning", "joy", "exciting", "excited"]

/-- The negative word list of `calculateBasicSentiment`. -/
def BASIC_NEGATIVE_WORDS : List String :=
  ["bad", "terrible", "awful", "horrible", "worst", "hate", "sad", "ugly", "poor", "disappointing", "disappointed", "negative", "fail", "failure", "lose", "losing", "angry", "boring", "bored", "annoying", "annoyed", "frustrating", "frustrated", "painful", "pain", "wrong"]


/-- `ALL_ABBREVIATIONS`: the union of the six abbreviation sets. -/
def ALL_ABBREVIATIONS : List String :=
  ABBREV_TITLES ++ ABBREV_ACADEMIC ++ ABBREV_MONTHS ++ ABBREV_STATES ++
    ABBREV_COMMON ++ ABBREV_UNITS

/-- `SENTENCE_ENDERS`. -/
def SENTENCE_ENDERS : List Char := ['.', '!', '?']

/-- `QUOTE_CHARS` (straight and curly quotes and the backquote). -/
def QUOTE_CHARS : List Char :=
  ['"', apos, Char.ofNat 8220, Char.ofNat 8221, Char.ofNat 8216,
   Char.ofNat 8217, Char.ofNat 96]

/-- `BRACKET_CLOSE`. -/
def BRACKET_CLOSE : List Char := [')', ']', Char.ofNat 125, Char.ofNat 187]

/-- The regex class `[A-Z]`. -/
def isUpperAZ (c : Char) : Bool := decide (65 ≤ c.toNat) && decide (c.toNat ≤ 90)

/-- The regex class `[a-z]`. -/
def isLowerAZ (c : Char) : Bool := decide (97 ≤ c.toNat) && decide (c.toNat ≤ 122)

-- ===========================================================================
-- § Sentence splitter: sentence types, complexity, basic sentiment
-- ===========================================================================

/-- The `SentenceType` union. -/
inductive SentenceType
  | declarative | interrogative | exclamatory | imperative
deriving DecidableEq, Repr

/-- `detectSentenceType` of sentence-splitter.ts: final punctuation first,
then the imperative test (first content token is a verb and is also the
first alphabetic token; the source compares the two found tokens with
`===`, which coincides with structural equality because tokens carry their
`index`). -/
def detectSentenceType (text : Str) (tokens : List Token) : SentenceType :=
  let trimmed := jsTrim text
  if trimmed.getLast? == some '?' then SentenceType.interrogative
  else if trimmed.getLast? == some '!' then SentenceType.exclamatory
  else
    match tokens.find? (fun t => t.isAlpha && !t.isStopWord) with
    | some firstWord =>
      if firstWord.pos = PartOfSpeech.VERB then
        match tokens.find? (·.isAlpha) with
        | some firstAlpha =>
          if firstAlpha.pos = PartOfSpeech.VERB ∧ firstAlpha = firstWord then
            SentenceType.imperative
          else SentenceType.declarative
        | none => SentenceType.declarative
      else SentenceType.declarative
    | none => SentenceType.declarative

/-- `countSyllables`: vowel-group count with the silent-e and `-le`
adjustments. -/
def countSyllables (word : Str) : Nat :=
  let lower := lowerS word
  if lower.length ≤ 3 then 1
  else
    let vowels : List Char := ['a', 'e', 'i', 'o', 'u', 'y']
    let count := (lower.foldl
      (fun (st : Nat × Bool) c =>
        let isV := vowels.contains c
        ((if isV && !st.2 then st.1 + 1 else st.1), isV))
      (0, false)).1
    let count := if lower.getLast? == some 'e' && decide (1 < count) then count - 1 else count
    let count :=
      if lower.getLast? == some 'e' && (lower.drop (lower.length - 2) == ['l', 'e']) &&
          decide (2 < lower.length) &&
          ((lower.get? (lower.length - 3)).elim true (fun c => !vowels.contains c)) then
        count + 1
      else count
    max 1 count

/-- The `ComplexityMetrics` record of `analyzeComplexity`. -/
structure ComplexityMetrics where
  wordCount : Nat
  avgWordLength : Rat
  syllableCount : Nat
  avgSyllablesPerWord : Rat
  clauseCount : Nat
  subordinateClauseCount : Nat
  complexityScore : Rat
deriving Repr

/-- The clause indicator set of `analyzeComplexity`. -/
def CLAUSE_INDICATORS : List String :=
  [",", ";", "and", "but", "or", "because", "although", "while", "when",
   "if", "that", "which", "who"]

/-- The subordinator set of `analyzeComplexity`. -/
def SUBORDINATORS : List String :=
  ["because", "although", "while", "when", "if", "unless", "since", "after",
   "before", "that", "which", "who", "whom", "whose"]

/-- `analyzeComplexity` of sentence-splitter.ts. -/
def analyzeComplexity (tokens : List Token) : ComplexityMetrics :=
  let words := tokens.filter (·.isAlpha)
  let wordCount := words.length
  if wordCount = 0 then ⟨0, 0, 0, 0, 1, 0, 0⟩
  else
    let totalLength := words.foldl (fun s t => s + t.text.length) (0 : Nat)
    let avgWordLength : Rat := (totalLength : Rat) / (wordCount : Rat)
    let syllableCount := words.foldl (fun s t => s + countSyllables t.text) (0 : Nat)
    let avgSyll : Rat := (syllableCount : Rat) / (wordCount : Rat)
    let counts := tokens.foldl
      (fun (p : Nat × Nat) token =>
        let lower := strOf (lowerS token.text)
        let c1 :=
          if CLAUSE_INDICATORS.contains lower || CLAUSE_INDICATORS.contains (strOf token.text)
          then p.1 + 1 else p.1
        let c2 := if SUBORDINATORS.contains lower then p.2 + 1 else p.2
        (c1, c2))
      (1, 0)
    let lengthFactor := min (avgWordLength / 8) 1 * 25
    let syllableFactor := min (avgSyll / 3) 1 * 25
    let clauseFactor := min ((counts.1 : Rat) / 4) 1 * 25
    let wordCountFactor := min ((wordCount : Rat) / 30) 1 * 25
    ⟨wordCount, avgWordLength, syllableCount, avgSyll, counts.1, counts.2,
     lengthFactor + syllableFactor + clauseFactor + wordCountFactor⟩

/-- `SentenceSplitter.calculateBasicSentiment`: the two-word-list fallback
sentiment (disjoint from the analyzer's lexicon). -/
def calculateBasicSentiment (tokens : List Token) : SentimentScore :=
  let pn := tokens.foldl
    (fun (p : Nat × Nat) token =>
      let lower := strOf (lowerS token.lem)
      if BASIC_POSITIVE_WORDS.contains lower then (p.1 + 1, p.2)
      else if BASIC_NEGATIVE_WORDS.contains lower then (p.1, p.2 + 1)
      else p)
    (0, 0)
  let total := pn.1 + pn.2
  if total = 0 then ⟨0, 0, 0, 1, 1/2⟩
  else
    let positiveScore := (pn.1 : Rat) / (total : Rat)
    let negativeScore := (pn.2 : Rat) / (total : Rat)
    ⟨positiveScore - negativeScore, positiveScore, negativeScore,
     1 - (positiveScore + negativeScore), min ((total : Rat) / 5) 1⟩

-- ===========================================================================
-- § Sentence splitter: boundary detection (SentenceSplitter of part_003)
-- ===========================================================================

/-- `SentenceSplitter.getWordBefore`: the maximal letter run ending just
before `pos`, or `none` when empty. -/
def getWordBefore (text : Str) (pos : Nat) : Option Str :=
  let w := ((text.take pos).reverse.takeWhile isAsciiLetter).reverse
  if w.isEmpty then none else some w

/-- `SentenceSplitter.getWordAfter`: skip whitespace from `pos`, then take
the maximal letter run, or `none` when empty. Note the callers pass the
position of the period itself, where the run is always empty. -/
def getWordAfter (text : Str) (pos : Nat) : Option Str :=
  let w := ((text.drop pos).dropWhile isSpaceChar).takeWhile isAsciiLetter
  if w.isEmpty then none else some w

/-- `SentenceSplitter.getNextNonSpace`. -/
def getNextNonSpace (text : Str) (pos : Nat) : Option Char :=
  ((text.drop pos).dropWhile isSpaceChar).head?

/-- Substring containment used for the URL-proximity test. -/
def containsSub (hay needle : Str) : Bool :=
  decide (0 ≤ jsIndexOf hay needle 0)

/-- The regex fragment `@\w+\.` tested anywhere in a string. -/
def atWordDot : Str → Bool
  | [] => false
  | c :: rest =>
    (c == '@' &&
      (let w := rest.takeWhile isWordChar
       !w.isEmpty && ((rest.dropWhile isWordChar).head? == some '.')))
      || atWordDot rest

/-- `/https?:\/\/|www\.|@\w+\./.test(s)`. -/
def testUrlish (s : Str) : Bool :=
  containsSub s "http://".data || containsSub s "https://".data ||
    containsSub s "www.".data || atWordDot s

/-- Try `/https?:\/\/[^\s]+|www\.[^\s]+/` at one position (alternatives in
regex order, the scheme's optional `s` tried greedily). -/
def urlMatchAt (s : Str) : Option Str :=
  let tryScheme := fun (scheme : Str) =>
    if isPrefixB scheme s then
      let run := (s.drop scheme.length).takeWhile (fun c => !isSpaceChar c)
      if run.isEmpty then none else some (scheme ++ run)
    else none
  match tryScheme "https://".data with
  | some m => some m
  | none =>
    match tryScheme "http://".data with
    | some m => some m
    | none => tryScheme "www.".data

/-- Leftmost match of `/https?:\/\/[^\s]+|www\.[^\s]+/` with its index. -/
def findUrlF : Nat → Str → Nat → Option (Nat × Str)
  | 0, _, _ => none
  | fuel + 1, s, i =>
    match urlMatchAt s with
    | some m => some (i, m)
    | none =>
      match s with
      | [] => none
      | _ :: rest => findUrlF fuel rest (i + 1)

/-- `s.match(/https?:\/\/[^\s]+|www\.[^\s]+/)` with the match index. -/
def jsMatchUrl (s : Str) : Option (Nat × Str) := findUrlF (s.length + 1) s 0

/-- The default tail of `isSentenceBoundary`: boundary unless the next
non-space character is a lowercase letter. -/
def defaultBoundary (text : Str) (pos : Nat) : Bool :=
  match getNextNonSpace text (pos + 1) with
  | none => true
  | some c =>
    if isUpperAZ c then true
    else if isLowerAZ c then false
    else if isDigitChar c then true
    else true

/-- The abbreviation branch of `isSentenceBoundary`: a known abbreviation
before the period is no boundary unless a capital follows, except that a
title abbreviation followed by a word is a name continuation. The
continuation probe calls `getWordAfter` at the period position itself, so
it always comes back `none`. -/
def abbrevBoundary (text : Str) (pos : Nat) (wb : Str) : Bool :=
  match getNextNonSpace text (pos + 1) with
  | some nns =>
    if isUpperAZ nns then
      if (getWordAfter text pos).isSome &&
          ABBREV_TITLES.contains (strOf (lowerS wb)) then false
      else true
    else false
  | none => false

/-- The non-abbreviation checks of `isSentenceBoundary`: decimal number,
ellipsis, single-capital initial, URL/email window, then the default. -/
def restBoundary (text : Str) (pos : Nat) (wb? : Option Str) : Bool :=
  let charBeforeDigit := if 0 < pos then (text.get? (pos - 1)).elim false isDigitChar else false
  let charAfterDigit :=
    if pos < text.length - 1 then (text.get? (pos + 1)).elim false isDigitChar else false
  if charBeforeDigit && charAfterDigit then false
  else if decide (pos < text.length - 2) && ((text.drop pos).take 3 == ['.', '.', '.']) then
    false
  else if (match wb? with
           | some wb => decide (wb.length = 1) && wb.any isUpperAZ
           | none => false) &&
          ((getNextNonSpace text (pos + 1)).elim false isUpperAZ) then false
  else
    let surrounding := jsSubstring text ((pos : Int) - 50) ((pos : Int) + 50)
    let urlHit :=
      if testUrlish surrounding then
        match jsMatchUrl surrounding with
        | some pm =>
          let urlStart := jsIndexOf surrounding pm.2 0
          let relativePos : Int := 50 - max 0 ((pos : Int) - 50)
          decide (urlStart ≤ relativePos) &&
            decide (relativePos < urlStart + (pm.2.length : Int))
        | none => false
      else false
    if urlHit then false
    else defaultBoundary text pos

/-- `SentenceSplitter.isSentenceBoundary`. -/
def isSentenceBoundary (text : Str) (pos : Nat) : Bool :=
  match text.get? pos with
  | none => false
  | some c =>
    if c == '?' || c == '!' then true
    else if c == '.' then
      match getWordBefore text pos with
      | some wb =>
        if ALL_ABBREVIATIONS.contains (strOf (lowerS wb)) then abbrevBoundary text pos wb
        else restBoundary text pos (some wb)
      | none => restBoundary text pos none
    else false

/-- A sentence boundary record (`{ start, end }`; `end` is a Lean keyword,
so the field is `stop`). -/
structure Boundary where
  start : Nat
  stop : Nat
deriving DecidableEq, Repr

/-- `SentenceSplitter.findBoundaries`: one left-to-right scan over the
sentence-ending characters, absorbing trailing quotes and close brackets
into the boundary. -/
def findBoundaries (text : Str) : List Boundary :=
  ((List.range text.length).foldl
    (fun (st : List Boundary × Nat) i =>
      match text.get? i with
      | some c =>
        if SENTENCE_ENDERS.contains c then
          if isSentenceBoundary text i then
            let endPos := (i + 1) +
              ((text.drop (i + 1)).takeWhile
                (fun ch => QUOTE_CHARS.contains ch || BRACKET_CLOSE.contains ch)).length
            (st.1 ++ [⟨st.2, endPos⟩], endPos)
          else st
        else st
      | none => st)
    ([], 0)).1

/-- The `Sentence` record (the source's `type` field is `stype` here). -/
structure Sentence where
  text : Str
  tokens : List Token
  startChar : Nat
  endChar : Nat
  stype : SentenceType
  sentiment : SentimentScore
  complexity : Rat
deriving Repr

/-- Build one `Sentence` as `SentenceSplitter.split` does. -/
def mkSentence (sentText : Str) (startChar endChar : Nat) : Sentence :=
  let tokens := tokenizeCompute sentText
  { text := sentText
    tokens := tokens
    startChar := startChar
    endChar := endChar
    stype := detectSentenceType sentText tokens
    sentiment := calculateBasicSentiment tokens
    complexity := (analyzeComplexity tokens).complexityScore }

namespace SentenceSplitter

/-- The cache-free body of `SentenceSplitter.split`. -/
def splitCompute (text : Str) : List Sentence :=
  let res := (findBoundaries text).foldl
    (fun (st : List Sentence × Nat) b =>
      let sentenceText := jsTrim (jsSubstring text (st.2 : Int) (b.stop : Int))
      let acc :=
        if sentenceText.isEmpty then st.1
        else st.1 ++ [mkSentence sentenceText st.2 b.stop]
      (acc, b.stop))
    ([], 0)
  if res.2 < text.length then
    let remainingText := jsTrim (text.drop res.2)
    if remainingText.isEmpty then res.1
    else res.1 ++ [mkSentence remainingText res.2 text.length]
  else res.1

/-- `maxCacheSize` of the `SentenceSplitter` class. -/
def maxCacheSize : Nat := 500

/-- `SentenceSplitter.split` with its cache state made explicit (cache key
`text.substring(0, 200)`). -/
def split (cache : List (Str × List Sentence)) (text : Str) :
    List Sentence × List (Str × List Sentence) :=
  cachedCall 200 maxCacheSize splitCompute cache text

end SentenceSplitter

-- ===========================================================================
-- § Keyword extractor: configuration and TextRank (keyword-extractor.ts)
-- ===========================================================================

/-- The `KeywordConfig` record. -/
structure KeywordConfig where
  maxKeywords : Nat
  maxKeyphrases : Nat
  minWordLength : Nat
  minPhraseLength : Nat
  maxPhraseLength : Nat
  includeNGrams : Bool
  useTFIDF : Bool
  useTextRank : Bool
  useRake : Bool
deriving Repr

/-- `DEFAULT_CONFIG` of keyword-extractor.ts. -/
def DEFAULT_CONFIG : KeywordConfig :=
  ⟨30, 20, 3, 2, 5, true, true, true, true⟩

/-- A scored keyword (`ScoredKeyword`). -/
structure ScoredKeyword where
  keyword : String
  score : Rat
  frequency : Int
  method : String
deriving DecidableEq, Repr

/-- A node of the TextRank co-occurrence graph (`GraphNode`). -/
structure GraphNode where
  word : String
  score : Rat
  edges : List (String × Rat)
deriving Repr

namespace TextRankGraph

/-- `dampingFactor` of `TextRankGraph`. -/
def dampingFactor : Rat := 0.85

/-- `convergenceThreshold` of `TextRankGraph`. -/
def convergenceThreshold : Rat := 0.0001

/-- `maxIterations` of `TextRankGraph`. -/
def maxIterations : Nat := 100

/-- `TextRankGraph.addEdge` (the source's default weight 1 is passed
explicitly at every call site): skip self-loops, create missing nodes with
score 1, and increment the weight on both directions. -/
def addEdge (nodes : List (String × GraphNode)) (word1 word2 : String)
    (weight : Rat) : List (String × GraphNode) :=
  if word1 == word2 then nodes
  else
    let nodes1 :=
      if (jsMapGet nodes word1).isSome then nodes
      else jsMapSet nodes word1 ⟨word1, 1, []⟩
    let nodes2 :=
      if (jsMapGet nodes1 word2).isSome then nodes1
      else jsMapSet nodes1 word2 ⟨word2, 1, []⟩
    let upd := fun (ns : List (String × GraphNode)) (a b : String) =>
      match jsMapGet ns a with
      | some n =>
        jsMapSet ns a
          { n with edges := jsMapSet n.edges b ((jsMapGet n.edges b).getD 0 + weight) }
      | none => ns
    upd (upd nodes2 word1 word2) word2 word1

/-- One full sweep of the `calculate` iteration (Gauss–Seidel style: the
score map is updated in place within the sweep). Returns the new score map
and the maximal absolute score change. -/
def calculatePass (nodes : List (String × GraphNode))
    (scores : List (String × Rat)) : List (String × Rat) × Rat :=
  nodes.foldl
    (fun (acc : List (String × Rat) × Rat) p =>
      let newScore := p.2.edges.foldl
        (fun s e =>
          match jsMapGet nodes e.1 with
          | some neighborNode =>
            let tot := neighborNode.edges.foldl (fun a b => a + b.2) (0 : Rat)
            if 0 < tot then
              s + dampingFactor * (e.2 / tot) * ((jsMapGet acc.1 e.1).getD 1)
            else s
          | none => s)
        (1 - dampingFactor)
      let oldScore := (jsMapGet acc.1 p.1).getD 1
      (jsMapSet acc.1 p.1 newScore, max acc.2 |newScore - oldScore|))
    (scores, 0)

/-- `TextRankGraph.calculate`: initialize all scores to 1 and sweep until
the maximal change drops below the threshold or the iteration cap. -/
def calculate (nodes : List (String × GraphNode)) : List (String × Rat) :=
  let scores0 := nodes.map (fun p => (p.1, (1 : Rat)))
  ((List.range maxIterations).foldl
    (fun (st : List (String × Rat) × Bool) _ =>
      if st.2 then st
      else
        let r := calculatePass nodes st.1
        (r.1, decide (r.2 < convergenceThreshold)))
    (scores0, false)).1

end TextRankGraph

/-- `KeywordExtractor.extractTextRank`: build the window-2 co-occurrence
graph over content tokens and read off the TextRank scores. -/
def extractTextRank (cfg : KeywordConfig) (tokens : List Token) : List ScoredKeyword :=
  let contentTokens := tokens.filter
    (fun t => t.isAlpha && !t.isStopWord && decide (cfg.minWordLength ≤ t.text.length))
  let graph := (List.range contentTokens.length).foldl
    (fun g i =>
      match contentTokens.get? i with
      | some ti =>
        let word1 := strOf (lowerS ti.lem)
        (List.range' (i + 1) (min (i + 3) contentTokens.length - (i + 1))).foldl
          (fun g2 j =>
            match contentTokens.get? j with
            | some tj => TextRankGraph.addEdge g2 word1 (strOf (lowerS tj.lem)) 1
            | none => g2)
          g
      | none => g)
    []
  let scores := TextRankGraph.calculate graph
  let results := scores.map (fun p =>
    ScoredKeyword.mk p.1 p.2
      (((contentTokens.filter (fun t => strOf (lowerS t.lem) == p.1)).length : Int))
      "textrank")
  jsSortBy (fun a b => decide (b.score < a.score)) results

-- ===========================================================================
-- § Keyword extractor: TF-IDF (TFIDFCalculator of keyword-extractor.ts)
-- ===========================================================================

/-- A TF-IDF line (`TFIDFResult`). -/
structure TFIDFResult where
  term : String
  tf : Rat
  idf : Rat
  tfidf : Rat
deriving Repr

/-- `TFIDFCalculator.calculateIDFFromCorpus`, with `Math.log` passed in as
`log`: smoothed IDF `log((N+1)/(df+1)) + 1`. -/
def calculateIDFFromCorpus (log : Rat → Rat) (corpus : List Str)
    (terms : List String) : List (String × Rat) :=
  let df := corpus.foldl
    (fun m doc =>
      let docTokens := ((tokenizeCompute doc).filter (·.isAlpha)).map
        (fun t => strOf (lowerS t.lem))
      terms.foldl
        (fun m2 term =>
          if docTokens.contains term then
            jsMapSet m2 term ((jsMapGet m2 term).getD 0 + 1)
          else m2)
        m)
    []
  let n := corpus.length
  terms.foldl
    (fun idf term =>
      let docFreq : Nat := (jsMapGet df term).getD 0
      jsMapSet idf term (log (((n : Rat) + 1) / ((docFreq : Rat) + 1)) + 1))
    []

/-- `TFIDFCalculator.calculatePseudoIDF`: position-based pseudo-IDF
(earlier mentions weigh more through `1/log(pos+2)`) with a rarity factor
`1/log(count+2)`. -/
def calculatePseudoIDF (log : Rat → Rat) (tokens : List Token)
    (terms : List String) : List (String × Rat) :=
  let termPositions := tokens.enum.foldl
    (fun m p =>
      let term := strOf (lowerS p.2.lem)
      if terms.contains term then
        jsMapSet m term ((jsMapGet m term).getD [] ++ [p.1])
      else m)
    []
  terms.foldl
    (fun idf term =>
      let positions : List Nat := (jsMapGet termPositions term).getD []
      let positionScore := positions.foldl
        (fun s pos => s + 1 / log ((pos : Rat) + 2)) (0 : Rat)
      let frequencyPenalty := 1 / log ((positions.length : Rat) + 2)
      jsMapSet idf term (positionScore * frequencyPenalty + 1))
    []

/-- `TFIDFCalculator.calculateForDocument`: term frequencies over content
tokens normalized by the maximal frequency, IDF from the corpus when one is
given and the pseudo-IDF otherwise, sorted by descending tf-idf. -/
def calculateForDocument (log : Rat → Rat) (text : Str)
    (corpus : Option (List Str)) : List TFIDFResult :=
  let tokens := tokenizeCompute text
  let words := (tokens.filter
    (fun t => t.isAlpha && !t.isStopWord && decide (3 ≤ t.text.length))).map
    (fun t => strOf (lowerS t.lem))
  let tf0 : List (String × Rat) := words.foldl
    (fun m w => jsMapSet m w ((jsMapGet m w).getD 0 + 1)) []
  let maxTF := tf0.foldl (fun a p => max a p.2) (1 : Rat)
  let tf := tf0.map (fun p => (p.1, p.2 / maxTF))
  let idf :=
    match corpus with
    | some cs =>
      if 0 < cs.length then calculateIDFFromCorpus log cs (tf.map (·.1))
      else calculatePseudoIDF log tokens (tf.map (·.1))
    | none => calculatePseudoIDF log tokens (tf.map (·.1))
  let results := tf.map (fun p =>
    let idfScore := (jsMapGet idf p.1).getD 1
    TFIDFResult.mk p.1 p.2 idfScore (p.2 * idfScore))
  jsSortBy (fun a b => decide (b.tfidf < a.tfidf)) results

-- ===========================================================================
-- § Keyword extractor: n-grams, merge, extract (KeywordExtractor)
-- ===========================================================================

/-- `KeywordExtractor.extractTFIDF`. -/
def extractTFIDF (log : Rat → Rat) (text : Str) (corpus : Option (List Str)) :
    List ScoredKeyword :=
  (calculateForDocument log text corpus).map (fun r =>
    ScoredKeyword.mk r.term r.tfidf (jsRound (r.tf * 10)) "tfidf")

/-- `String.prototype.split` with a one-character separator, on the
character list (`"a b".split(' ') = ["a", "b"]`, `"".split(' ') = [""]`). -/
def splitChar (c : Char) (s : Str) : List Str :=
  s.foldr (fun x acc => if x = c then [] :: acc else (x :: acc.headD []) :: acc.tail) [[]]

/-- `KeywordExtractor.extractNGrams`: 2- and 3-grams over content tokens,
skipping n-grams with more than one stop word or a stop word at an edge,
kept at frequency at least 2 and scored by `count × length`. -/
def extractNGrams (tokens : List Token) : List ScoredKeyword :=
  let contentTokens := tokens.filter (fun t => t.isAlpha && decide (2 ≤ t.text.length))
  let ngramCounts := ([2, 3] : List Nat).foldl
    (fun m n =>
      (List.range (contentTokens.length + 1 - n)).foldl
        (fun (m2 : List (String × Nat)) i =>
          let ngram := (contentTokens.drop i).take n
          let stopWordCount := (ngram.filter (·.isStopWord)).length
          if 1 < stopWordCount then m2
          else if (ngram.head?.elim false (·.isStopWord)) ||
              (ngram.getLast?.elim false (·.isStopWord)) then m2
          else
            let ngramText := String.intercalate " "
              (ngram.map (fun t => strOf (lowerS t.lem)))
            jsMapSet m2 ngramText ((jsMapGet m2 ngramText).getD 0 + 1))
        m)
    []
  let results := ngramCounts.foldl
    (fun (rs : List ScoredKeyword) p =>
      if 2 ≤ p.2 then
        rs ++ [ScoredKeyword.mk p.1
          ((p.2 : Rat) * ((splitChar ' ' p.1.data).length : Rat)) (p.2 : Int) "ngram"]
      else rs)
    []
  jsSortBy (fun a b => decide (b.score < a.score)) results

/-- The merge accumulator of `combineKeywords`. -/
structure CombineEntry where
  score : Rat
  frequency : Int
  methods : List String
deriving Repr

/-- `KeywordExtractor.combineKeywords`: normalize each method's scores by
that method's maximum (floored at 0.001), sum per keyword, boost
cross-method agreement by `1 + 0.3 × (methods − 1)`, and sort by
descending score. -/
def combineKeywords (keywordSets : List (List ScoredKeyword)) : List ScoredKeyword :=
  let combinedScores := keywordSets.foldl
    (fun (m : List (String × CombineEntry)) keywords =>
      let maxScore := keywords.foldl (fun a k => max a k.score) (1/1000 : Rat)
      keywords.foldl
        (fun m2 keyword =>
          let normalized := keyword.score / maxScore
          match jsMapGet m2 keyword.keyword with
          | some existing =>
            jsMapSet m2 keyword.keyword
              { score := existing.score + normalized
                frequency := max existing.frequency keyword.frequency
                methods :=
                  if existing.methods.contains keyword.method then existing.methods
                  else existing.methods ++ [keyword.method] }
          | none =>
            jsMapSet m2 keyword.keyword ⟨normalized, keyword.frequency, [keyword.method]⟩)
        m)
    []
  let results := combinedScores.map (fun p =>
    let methodBoost : Rat := 1 + ((p.2.methods.length : Rat) - 1) * (3/10)
    ScoredKeyword.mk p.1 (p.2.score * methodBoost) p.2.frequency
      (String.intercalate "+" p.2.methods))
  jsSortBy (fun a b => decide (b.score < a.score)) results

namespace KeywordExtractor

/-- `maxCacheSize` of the `KeywordExtractor` class. -/
def maxCacheSize : Nat := 200

/-- The `keywords` field of `KeywordExtractor.extract`, cache-free: the
TextRank, TF-IDF and n-gram extractors (each behind its config switch)
merged by `combineKeywords` and truncated to `maxKeywords`. RAKE feeds only
the key-phrase output, and topics/statistics do not feed `keywords`, so
they are not modeled (topic clustering is randomized k-means). -/
def extractKeywordsList (log : Rat → Rat) (cfg : KeywordConfig) (text : Str)
    (corpus : Option (List Str)) : List ScoredKeyword :=
  let tokens := tokenizeCompute text
  let textRankKeywords := if cfg.useTextRank then extractTextRank cfg tokens else []
  let tfidfKeywords := if cfg.useTFIDF then extractTFIDF log text corpus else []
  let ngramKeywords := if cfg.includeNGrams then extractNGrams tokens else []
  let combinedKeywords := combineKeywords [textRankKeywords, tfidfKeywords, ngramKeywords]
  combinedKeywords.take cfg.maxKeywords

/-- `KeywordExtractor.extract` (keywords field) with its cache state made
explicit (cache key `text.substring(0, 100)`, default configuration, no
corpus). -/
def extract (log : Rat → Rat) (cache : List (Str × List ScoredKeyword))
    (text : Str) : List ScoredKeyword × List (Str × List ScoredKeyword) :=
  cachedCall 100 maxCacheSize (fun t => extractKeywordsList log DEFAULT_CONFIG t none)
    cache text

end KeywordExtractor

/-- The keyword extractor's own stop-word / delimiter word set
(`STOP_WORDS` of keyword-extractor.ts). -/
def KE_STOP_WORDS : List String :=
  ["a", "about", "above", "after", "again", "against", "all", "am", "an", "and", "any", "are", "aren't", "as", "at", "be", "because", "been", "before", "being", "below", "between", "both", "but", "by", "can't", "cannot", "could", "couldn't", "did", "didn't", "do", "does", "doesn't", "doing", "don't", "down", "during", "each", "few", "for", "from", "further", "had", "hadn't", "has", "hasn't", "have", "haven't", "having", "he", "he'd", "he'll", "he's", "her", "here", "here's", "hers", "herself", "him", "himself", "his", "how", "how's", "i", "i'd", "i'll", "i'm", "i've", "if", "in", "into", "is", "isn't", "it", "it's", "its", "itself", "let's", "me", "more", "most", "mustn't", "my", "myself", "no", "nor", "not", "of", "off", "on", "once", "only", "or", "other", "ought", "our", "ours", "ourselves", "out", "over", "own", "same", "shan't", "she", "she'd", "she'll", "she's", "should", "shouldn't", "so", "some", "such", "than", "that", "that's", "the", "their", "theirs", "them", "themselves", "then", "there", "there's", "these", "they", "they'd", "they'll", "they're", "they've", "this", "those", "through", "to", "too", "under", "until", "up", "very", "was", "wasn't", "we", "we'd", "we'll", "we're", "we've", "were", "weren't", "what", "what's", "when", "when's", "where", "where's", "which", "while", "who", "who's", "whom", "why", "why's", "with", "won't", "would", "wouldn't", "you", "you'd", "you'll", "you're", "you've", "your", "yours", "yourself", "yourselves", "also", "just", "like", "will", "can", "may", "might", "shall", "get", "got", "getting", "go", "going", "went", "gone", "come", "came", "coming", "make", "made", "making", "take", "took", "taken", "taking", "see", "saw", "seen", "seeing", "know", "knew", "known", "knowing", "think", "thought", "thinking", "want", "wanted", "wanting", "use", "used", "using", "find", "found", "finding", "give", "gave", "given", "giving", "tell", "told", "telling", "ask", "asked", "asking", "work", "worked", "working", "seem", "seemed", "seeming", "feel", "felt", "feeling", "try", "tried", "trying", "leave", "left", "leaving", "call", "called", "calling", "keep", "kept", "keeping", "let", "letting", "begin", "began", "begun", "beginning", "show", "showed", "shown", "showing", "hear", "heard", "hearing", "play", "played", "playing", "run", "ran", "running", "move", "moved", "moving", "live", "lived", "living", "believe", "believed", "believing", "hold", "held", "holding", "bring", "brought", "bringing", "happen", "happened", "happening", "write", "wrote", "written", "writing", "provide", "provided", "providing", "sit", "sat", "sitting", "stand", "stood", "standing", "lose", "lost", "losing", "pay", "paid", "paying", "meet", "met", "meeting", "include", "included", "including", "continue", "continued", "continuing", "set", "setting", "learn", "learned", "learning", "change", "changed", "changing", "lead", "led", "leading", "understand", "understood", "understanding", "watch", "watched", "watching", "follow", "followed", "following", "stop", "stopped", "stopping", "create", "created", "creating", "speak", "spoke", "spoken", "speaking", "read", "reading", "allow", "allowed", "allowing", "add", "added", "adding", "spend", "spent", "spending", "grow", "grew", "grown", "growing", "open", "opened", "opening", "walk", "walked", "walking", "win", "won", "winning", "offer", "offered", "offering", "remember", "remembered", "remembering", "love", "loved", "loving", "consider", "considered", "considering", "appear", "appeared", "appearing", "buy", "bought", "buying", "wait", "waited", "waiting", "serve", "served", "serving", "die", "died", "dying", "send", "sent", "sending", "expect", "expected", "expecting", "build", "built", "building", "stay", "stayed", "staying", "fall", "fell", "fallen", "falling", "cut", "cutting", "reach", "reached", "reaching", "kill", "killed", "killing", "remain", "remained", "remaining", "suggest", "suggested", "suggesting", "raise", "raised", "raising", "pass", "passed", "passing", "sell", "sold", "selling", "require", "required", "requiring", "report", "reported", "reporting", "decide", "decided", "deciding", "pull", "pulled", "pulling"]

-- ===========================================================================
-- § Statement-level definitions
-- ===========================================================================

/-- Two half-open character ranges `[startChar, endChar)` intersect. -/
def rangesIntersect (a b : NamedEntity) : Prop :=
  max a.startChar b.startChar < min a.endChar b.endChar

instance (a b : NamedEntity) : Decidable (rangesIntersect a b) := by
  unfold rangesIntersect
  infer_instance

/-- Run a sequence of cached engine calls from a starting cache, keeping
only the final cache state. -/
def runCalls (keyLen maxSize : Nat) (compute : Str → α)
    (cache : List (Str × α)) (texts : List Str) : List (Str × α) :=
  texts.foldl (fun c t => (cachedCall keyLen maxSize compute c t).2) cache

/-- The cache key an engine with key length `keyLen` derives from a text. -/
def cacheKeyOf (keyLen : Nat) (text : Str) : Str :=
  jsSubstring text 0 (keyLen : Int)

/-- 200 distinct nonempty two-letter texts, pairwise distinct as cache keys. -/
def capTexts : List Str :=
  (List.range 200).map (fun n => [Char.ofNat (97 + n / 20), Char.ofNat (97 + n % 20)])

/-- The raw tokens `rs` occur in `text`, in order, in disjoint regions
starting at or after position `k` (each fully inside the text). -/
def OccursFrom (text : Str) : List RawTok → Nat → Prop
  | [], _ => True
  | r :: rs, k => ∃ p, k ≤ p ∧ p + r.text.length ≤ text.length ∧
      isPrefixB r.text (text.drop p) = true ∧ OccursFrom text rs (p + r.text.length)

-- ===========================================================================
-- § Theorems: stable sort
-- ===========================================================================

theorem mem_insertBy (lt : α → α → Bool) (x a : α) (l : List α) :
    a ∈ insertBy lt x l ↔ a = x ∨ a ∈ l := by
  induction l with
  | nil => simp [insertBy]
  | cons y ys ih =>
    by_cases h : lt y x = true
    · simp only [insertBy, if_pos h, List.mem_cons, ih] <;> tauto
    · simp only [insertBy, if_neg h, List.mem_cons] <;> tauto

theorem mem_jsSortBy (lt : α → α → Bool) (a : α) (l : List α) :
    a ∈ jsSortBy lt l ↔ a ∈ l := by
  induction l with
  | nil => simp [jsSortBy]
  | cons y ys ih => simp [jsSortBy, mem_insertBy, ih]

theorem length_jsSortBy (lt : α → α → Bool) (l : List α) :
    (jsSortBy lt l).length = l.length := by
  induction l with
  | nil => rfl
  | cons y ys ih =>
    have hl : ∀ (x : α) (m : List α), (insertBy lt x m).length = m.length + 1 := by
      intro x m
      induction m with
      | nil => rfl
      | cons z zs ihm =>
        by_cases h : lt z x = true
        · simp [insertBy, if_pos h, ihm]
        · simp [insertBy, if_neg h]
    simp [jsSortBy, hl, ih]

theorem pairwise_insertBy (lt : α → α → Bool)
    (asymm : ∀ a b, lt a b = true → lt b a = false)
    (negtrans : ∀ a b c, lt b a = false → lt c b = false → lt c a = false)
    (x : α) (l : List α) (h : l.Pairwise (fun a b => lt b a = false)) :
    (insertBy lt x l).Pairwise (fun a b => lt b a = false) := by
  induction l with
  | nil => simp [insertBy]
  | cons y ys ih =>
    rcases List.pairwise_cons.mp h with ⟨hy, hys⟩
    by_cases hlt : lt y x = true
    · rw [insertBy, if_pos hlt]
      refine List.pairwise_cons.mpr ⟨?_, ih hys⟩
      intro z hz
      rcases (mem_insertBy lt x z ys).mp hz with rfl | hz2
      · exact asymm _ _ hlt
      · exact hy z hz2
    · rw [insertBy, if_neg hlt]
      refine List.pairwise_cons.mpr ⟨?_, h⟩
      intro z hz
      rcases List.mem_cons.mp hz with rfl | hz2
      · exact Bool.not_eq_true _ ▸ (by simpa using hlt)
      · exact negtrans x y z (by simpa using hlt) (hy z hz2)

theorem pairwise_jsSortBy (lt : α → α → Bool)
    (asymm : ∀ a b, lt a b = true → lt b a = false)
    (negtrans : ∀ a b c, lt b a = false → lt c b = false → lt c a = false)
    (l : List α) :
    (jsSortBy lt l).Pairwise (fun a b => lt b a = false) := by
  induction l with
  | nil => simp [jsSortBy]
  | cons y ys ih => exact pairwise_insertBy lt asymm negtrans y (jsSortBy lt ys) ih

-- ===========================================================================
-- § Theorems: C1 (entity deduplication yields disjoint spans)
-- ===========================================================================

theorem dedupSortLt_iff (a b : NamedEntity) :
    NamedEntityRecognizer.dedupSortLt a b = true ↔
      (a.startChar < b.startChar ∨
        (a.startChar = b.startChar ∧
          b.endChar - b.startChar < a.endChar - a.startChar)) := by
  unfold NamedEntityRecognizer.dedupSortLt
  by_cases h : a.startChar = b.startChar
  · rw [if_neg (not_not_intro h), decide_eq_true_eq]
    omega
  · rw [if_pos h, decide_eq_true_eq]
    constructor
    · exact fun hlt => Or.inl hlt
    · rintro (hlt | ⟨heq, _⟩)
      · exact hlt
      · exact absurd heq h

theorem dedupSortLt_asymm (a b : NamedEntity) :
    NamedEntityRecognizer.dedupSortLt a b = true →
    NamedEntityRecognizer.dedupSortLt b a = false := by
  intro h
  rw [Bool.eq_false_iff]
  intro hba
  have h1 := (dedupSortLt_iff a b).mp h
  have h2 := (dedupSortLt_iff b a).mp hba
  omega

theorem dedupSortLt_negtrans (a b c : NamedEntity) :
    NamedEntityRecognizer.dedupSortLt b a = false →
    NamedEntityRecognizer.dedupSortLt c b = false →
    NamedEntityRecognizer.dedupSortLt c a = false := by
  intro h1 h2
  rw [Bool.eq_false_iff] at h1 h2 ⊢
  have h1' := (not_congr (dedupSortLt_iff b a)).mp h1
  have h2' := (not_congr (dedupSortLt_iff c b)).mp h2
  intro hca
  have h3 := (dedupSortLt_iff c a).mp hca
  omega

theorem dedup_sorted_starts (entities : List NamedEntity) :
    (jsSortBy NamedEntityRecognizer.dedupSortLt entities).Pairwise
      (fun a b => a.startChar ≤ b.startChar) := by
  refine List.Pairwise.imp ?_
    (pairwise_jsSortBy _ dedupSortLt_asymm dedupSortLt_negtrans entities)
  intro a b h
  unfold NamedEntityRecognizer.dedupSortLt at h
  by_cases hs : b.startChar = a.startChar
  · omega
  · simp only [ne_eq, hs, not_false_eq_true, if_true, decide_eq_false_iff_not] at h
    omega

theorem dedupGo_pairwise :
    ∀ (rem acc : List NamedEntity) (lastEnd : Int),
      rem.Pairwise (fun a b => a.startChar ≤ b.startChar) →
      acc.Pairwise (fun a b => ¬ rangesIntersect a b) →
      (∀ x ∈ acc, ∀ e ∈ rem, x.endChar ≤ e.startChar ∨ e.startChar < lastEnd) →
      (NamedEntityRecognizer.dedupGo rem acc lastEnd).Pairwise
        (fun a b => ¬ rangesIntersect a b)
  | [], acc, lastEnd, _, hacc, _ => by
    simpa [NamedEntityRecognizer.dedupGo] using hacc
  | e :: rest, acc, lastEnd, hsorted, hacc, hA => by
    rcases List.pairwise_cons.mp hsorted with ⟨hefirst, hrest⟩
    rw [NamedEntityRecognizer.dedupGo]
    by_cases hskip : e.startChar < lastEnd
    · rw [if_pos hskip]
      exact dedupGo_pairwise rest acc lastEnd hrest hacc
        (fun x hx f hf => hA x hx f (List.mem_cons_of_mem _ hf))
    · rw [if_neg hskip]
      cases hdup : acc.find? (fun x =>
          x.text == e.text && x.etype == e.etype &&
            decide (|x.startChar - e.startChar| < 5)) with
      | none =>
        simp only [hdup]
        refine dedupGo_pairwise rest (acc ++ [e]) e.endChar hrest ?_ ?_
        · rw [List.pairwise_append]
          refine ⟨hacc, List.pairwise_singleton _ _, ?_⟩
          intro x hx y hy
          rcases List.mem_singleton.mp hy with rfl
          rcases hA x hx y (List.mem_cons_self _ _) with hle | hlt
          · unfold rangesIntersect
            omega
          · exact absurd hlt hskip
        · intro x hx f hf
          rcases List.mem_append.mp hx with hx1 | hx2
          · rcases hA x hx1 f (List.mem_cons_of_mem _ hf) with hle | hlt
            · exact Or.inl hle
            · have : e.startChar ≤ f.startChar := hefirst f hf
              omega
          · rcases List.mem_singleton.mp hx2 with rfl
            omega
      | some d =>
        simp only [hdup]
        exact dedupGo_pairwise rest acc lastEnd hrest hacc
          (fun x hx f hf => hA x hx f (List.mem_cons_of_mem _ hf))

/-- C1: for every candidate pool (hence for every entity list one call to
`NamedEntityRecognizer.recognize` produces before deduplication), the
greedy deduplication — sort by start offset then descending span length,
keep a candidate only if its start is at or past the end of the last kept
candidate — returns a list in which no two entities have intersecting
`[startChar, endChar)` ranges. -/
theorem recognize_entities_disjoint (entities : List NamedEntity) :
    (NamedEntityRecognizer.deduplicateEntities entities).Pairwise
      (fun a b => ¬ rangesIntersect a b) := by
  unfold NamedEntityRecognizer.deduplicateEntities
  exact dedupGo_pairwise _ [] (-1) (dedup_sorted_starts entities)
    (List.Pairwise.nil) (by intro x hx; cases hx)

-- ===========================================================================
-- § Theorems: C5 (sentiment score ranges), C3 (no sentiment words)
-- ===========================================================================

theorem sentMain_scores_nonneg (st : SentState) (t : Token) (lem : Str)
    (h1 : 0 ≤ st.positiveScore) (h2 : 0 ≤ st.negativeScore) :
    0 ≤ (sentMain st t lem).positiveScore ∧ 0 ≤ (sentMain st t lem).negativeScore := by
  cases hjo : jsObjGet SENTIMENT_LEXICON (strOf lem) with
  | none =>
    simp only [sentMain, hjo]
    split_ifs <;> exact ⟨h1, h2⟩
  | some entry =>
    simp only [sentMain, hjo]
    split_ifs <;>
      refine ⟨?_, ?_⟩ <;>
        first
          | exact h1
          | exact h2
          | exact add_nonneg h1 (le_of_lt (by assumption))
          | exact add_nonneg h2 (abs_nonneg _)

theorem sentStep_scores_nonneg (st : SentState) (t : Token)
    (h1 : 0 ≤ st.positiveScore) (h2 : 0 ≤ st.negativeScore) :
    0 ≤ (sentStep st t).positiveScore ∧ 0 ≤ (sentStep st t).negativeScore := by
  simp only [sentStep]
  split_ifs <;> first
    | exact ⟨h1, h2⟩
    | exact sentMain_scores_nonneg st t _ h1 h2

theorem sentFold_scores_nonneg (tokens : List Token) (st : SentState)
    (h1 : 0 ≤ st.positiveScore) (h2 : 0 ≤ st.negativeScore) :
    0 ≤ (tokens.foldl sentStep st).positiveScore ∧
      0 ≤ (tokens.foldl sentStep st).negativeScore := by
  induction tokens generalizing st with
  | nil => exact ⟨h1, h2⟩
  | cons t ts ih =>
    have hs := sentStep_scores_nonneg st t h1 h2
    exact ih _ hs.1 hs.2

/-- C5: for every token list, `analyzeTokens` returns a `SentimentScore`
within the documented ranges: `overall ∈ [-1, 1]` and `positive`,
`negative`, `neutral`, `confidence` each in `[0, 1]`, whatever the
intensifier multipliers did to the pre-clamp per-word scores. -/
theorem analyzeTokens_ranges (tokens : List Token) :
    -1 ≤ (analyzeTokens tokens).overall ∧ (analyzeTokens tokens).overall ≤ 1 ∧
    0 ≤ (analyzeTokens tokens).positive ∧ (analyzeTokens tokens).positive ≤ 1 ∧
    0 ≤ (analyzeTokens tokens).negative ∧ (analyzeTokens tokens).negative ≤ 1 ∧
    0 ≤ (analyzeTokens tokens).neutral ∧ (analyzeTokens tokens).neutral ≤ 1 ∧
    0 ≤ (analyzeTokens tokens).confidence ∧ (analyzeTokens tokens).confidence ≤ 1 := by
  obtain ⟨hp, hn⟩ :=
    sentFold_scores_nonneg tokens initSentState (le_refl 0) (le_refl 0)
  simp only [analyzeTokens]
  set st := tokens.foldl sentStep initSentState
  have hden : (0 : Rat) < ((max st.sentimentWordCount 1 : Nat) : Rat) * 5 := by
    have : (1 : Nat) ≤ max st.sentimentWordCount 1 := le_max_right _ _
    have h0 : (1 : Rat) ≤ ((max st.sentimentWordCount 1 : Nat) : Rat) := by
      exact_mod_cast this
    nlinarith
  have hwd : (0 : Rat) < ((max st.wordCount 1 : Nat) : Rat) := by
    have : (1 : Nat) ≤ max st.wordCount 1 := le_max_right _ _
    have h0 : (1 : Rat) ≤ ((max st.wordCount 1 : Nat) : Rat) := by exact_mod_cast this
    linarith
  refine ⟨le_max_left _ _, ?_, ?_, min_le_left _ _, ?_, min_le_left _ _,
    ?_, min_le_left _ _, ?_, min_le_right _ _⟩
  · exact max_le (by norm_num) (min_le_left _ _)
  · exact le_min (by norm_num) (div_nonneg hp (le_of_lt hden))
  · exact le_min (by norm_num) (div_nonneg hn (le_of_lt hden))
  · exact le_min (by norm_num) (le_max_left _ _)
  · exact le_min (div_nonneg (by positivity) (le_of_lt hwd)) (by norm_num)

theorem sentStep_no_hit (st : SentState) (t : Token)
    (h : jsObjGet SENTIMENT_LEXICON (strOf (lowerS t.lem)) = none) :
    (sentStep st t).totalScore = st.totalScore ∧
    (sentStep st t).positiveScore = st.positiveScore ∧
    (sentStep st t).negativeScore = st.negativeScore ∧
    (sentStep st t).sentimentWordCount = st.sentimentWordCount := by
  simp only [sentStep, sentMain, h]
  split_ifs <;> simp_all

theorem sentFold_no_hit (tokens : List Token) (st : SentState)
    (h : ∀ t ∈ tokens, jsObjGet SENTIMENT_LEXICON (strOf (lowerS t.lem)) = none) :
    (tokens.foldl sentStep st).totalScore = st.totalScore ∧
    (tokens.foldl sentStep st).positiveScore = st.positiveScore ∧
    (tokens.foldl sentStep st).negativeScore = st.negativeScore ∧
    (tokens.foldl sentStep st).sentimentWordCount = st.sentimentWordCount := by
  induction tokens generalizing st with
  | nil => exact ⟨rfl, rfl, rfl, rfl⟩
  | cons t ts ih =>
    have h1 := sentStep_no_hit st t (h t (List.mem_cons_self _ _))
    have h2 := ih (sentStep st t) (fun u hu => h u (List.mem_cons_of_mem _ hu))
    exact ⟨h2.1.trans h1.1, h2.2.1.trans h1.2.1, h2.2.2.1.trans h1.2.2.1,
      h2.2.2.2.trans h1.2.2.2⟩

/-- C3 (amended): a text with no sentiment-bearing words (no token lemma in
the lexicon) yields `overall = 0`, `positive = 0`, `negative = 0`,
`neutral = 1` and `confidence = 0` — not `confidence = 0.5` as the spec
states. -/
theorem analyze_no_sentiment_words (text : Str)
    (h : ∀ t ∈ tokenizeCompute text,
      jsObjGet SENTIMENT_LEXICON (strOf (lowerS t.lem)) = none) :
    SentimentAnalyzer.analyzeCompute text =
      { overall := 0, positive := 0, negative := 0, neutral := 1, confidence := 0 } := by
  unfold SentimentAnalyzer.analyzeCompute
  simp only [analyzeTokens]
  obtain ⟨ht, hp, hn, hs⟩ := sentFold_no_hit (tokenizeCompute text) initSentState h
  rw [ht, hp, hn, hs]
  show SentimentScore.mk _ _ _ _ _ = _
  norm_num [initSentState]

/-- C3 witness: the hypothesis holds for the text "The cat sat." (no lemma
of its tokens is in the lexicon), giving the amended result. -/
theorem analyze_no_sentiment_words_witness :
    (∀ t ∈ tokenizeCompute "The cat sat.".data,
      jsObjGet SENTIMENT_LEXICON (strOf (lowerS t.lem)) = none) ∧
    SentimentAnalyzer.analyzeCompute "The cat sat.".data =
      { overall := 0, positive := 0, negative := 0, neutral := 1, confidence := 0 } :=
  ⟨by decide, analyze_no_sentiment_words "The cat sat.".data (by decide)⟩

/-- C3 counterexample: `analyze("")` (run on an empty cache) has no
sentiment words, and it returns `confidence = 0`, while the claim says the
analyzer reports `confidence = 0.5` in that case; `0 ≠ 0.5`. -/
theorem analyze_empty_confidence_not_half :
    (SentimentAnalyzer.analyze [] []).1 =
      { overall := 0, positive := 0, negative := 0, neutral := 1, confidence := 0 } ∧
    ((0 : Rat) = 1/2 → False) := by
  exact ⟨by decide, by norm_num⟩

-- ===========================================================================
-- § Theorems: C4 (negation window)
-- ===========================================================================

/-- C4: a lexicon word inside an active negation window (negationActive
with a positive remaining scope) contributes
`score × intensity × currentIntensifier × (-0.5)` to the total, and
consequently `analyze("This is not good at all.")` has a strictly smaller
`overall` than `analyze("This is good at all.")`. -/
theorem negation_window_flips_sign :
    (∀ (st : SentState) (t : Token) (e : LexiconEntry),
      NEGATIONS.contains (strOf (lowerS t.lem)) = false →
      NEGATIONS.contains (strOf (lowerS t.text)) = false →
      jsTruthyNum (jsObjGet INTENSIFIERS (strOf (lowerS t.lem))) = false →
      jsTruthyNum (jsObjGet DIMINISHERS (strOf (lowerS t.lem))) = false →
      jsObjGet SENTIMENT_LEXICON (strOf (lowerS t.lem)) = some e →
      st.negationActive = true → 0 < st.negationScope →
      (sentStep st t).totalScore =
        st.totalScore + e.score * e.intensity * st.currentIntensifier * (-(1/2 : Rat))) ∧
    (SentimentAnalyzer.analyzeCompute "This is not good at all.".data).overall <
      (SentimentAnalyzer.analyzeCompute "This is good at all.".data).overall := by
  constructor
  · intro st t e h1 h2 h3 h4 h5 h6 h7
    simp only [sentStep, sentMain, h1, h2, h3, h4, h5, h6, h7, Bool.false_or,
      Bool.false_eq_true, if_false, decide_True, Bool.true_and, ite_true, ite_false, if_true]
    split_ifs <;> rfl
  · decide

/-- C4 witness: the negation-window step lemma instantiated at the token
"good" (lexicon entry score 2, intensity 0.5) under an active window of
scope 3 with multiplier 1, together with the concrete `overall`
comparison. -/
theorem negation_window_flips_sign_witness :
    (sentStep (SentState.mk 0 0 0 0 0 1 true 3)
        (Token.mk "good".data "good".data PartOfSpeech.ADJ "JJ" false false true false 0 0 4)).totalScore
      = 0 + 2 * (1/2 : Rat) * 1 * (-(1/2 : Rat)) ∧
    (SentimentAnalyzer.analyzeCompute "This is not good at all.".data).overall <
      (SentimentAnalyzer.analyzeCompute "This is good at all.".data).overall :=
  ⟨negation_window_flips_sign.1 _ _ (LexiconEntry.mk 2 (1/2) ["joy"])
      (by decide) (by decide) (by decide) (by decide) (by decide) rfl (by decide),
   negation_window_flips_sign.2⟩

-- ===========================================================================
-- § Theorems: C7 (title abbreviations)
-- ===========================================================================

/-- C7 (code bug): on "Dr. Smith met Mrs. Jones. They left." the splitter
returns 4 sentences, not the 2 the claim (and the code's own comment about
titles) expects: `getWordAfter` is called with the period's own position,
where `text[position]` is the period itself, so it never returns the word
after the period, the title check never fires, and the periods after "Dr"
and "Mrs" are treated as boundaries. -/
theorem split_title_periods_bug :
    ((SentenceSplitter.splitCompute "Dr. Smith met Mrs. Jones. They left.".data).map
        Sentence.text) =
      ["Dr.".data, "Smith met Mrs.".data, "Jones.".data, "They left.".data] ∧
    (SentenceSplitter.splitCompute "Dr. Smith met Mrs. Jones. They left.".data).length = 4 ∧
    ((4 : Nat) = 2 → False) := by
  refine ⟨by decide, by decide, by decide⟩

-- ===========================================================================
-- § Theorems: C10 (cache returns the t1 result for a t2 with the same key)
-- ===========================================================================

theorem jsMapGet_set_self [BEq κ] [LawfulBEq κ] (m : List (κ × α)) (k : κ) (v : α) :
    jsMapGet (jsMapSet m k v) k = some v := by
  induction m with
  | nil => simp [jsMapGet, jsMapSet, List.find?]
  | cons e rest ih =>
    by_cases h : e.1 == k
    · simp [jsMapSet, jsMapGet, List.find?, h]
    · cases e with
      | mk k2 v2 =>
        simp only [jsMapSet]
        rw [if_neg (by simpa using h)]
        simpa [jsMapGet, List.find?, h] using ih

/-- C10: each engine's cached entry point is `cachedCall keyLen maxSize
compute`; whenever two texts share the truncated cache key
`text.substring(0, keyLen)`, calling on `t1` and then on `t2` returns for
`t2` exactly the result of the `t1` call, whatever the cache held before
and however the texts differ beyond the key. -/
theorem cachedCall_same_prefix (keyLen maxSize : Nat) (compute : Str → α)
    (cache : List (Str × α)) (t1 t2 : Str)
    (h : jsSubstring t1 0 (keyLen : Int) = jsSubstring t2 0 (keyLen : Int)) :
    (cachedCall keyLen maxSize compute
        (cachedCall keyLen maxSize compute cache t1).2 t2).1 =
      (cachedCall keyLen maxSize compute cache t1).1 := by
  simp only [cachedCall, ← h]
  cases hg : jsMapGet cache (jsSubstring t1 0 (keyLen : Int)) with
  | some v => simp [hg]
  | none => simp [hg, jsMapGet_set_self]

/-- C10 witness: the tokenizer (key length 100) on a fresh cache, with
`t1` = 101 copies of 'a' and `t2` = 100 copies of 'a' followed by 'b':
the keys agree, so the `t2` call returns the `t1` result. -/
theorem cachedCall_same_prefix_witness :
    jsSubstring (List.replicate 101 'a') 0 ((100 : Nat) : Int) =
      jsSubstring (List.replicate 100 'a' ++ ['b']) 0 ((100 : Nat) : Int) ∧
    (cachedCall 100 1000 tokenizeCompute
        (cachedCall 100 1000 tokenizeCompute [] (List.replicate 101 'a')).2
        (List.replicate 100 'a' ++ ['b'])).1 =
      (cachedCall 100 1000 tokenizeCompute [] (List.replicate 101 'a')).1 :=
  ⟨by decide, cachedCall_same_prefix 100 1000 tokenizeCompute []
      (List.replicate 101 'a') (List.replicate 100 'a' ++ ['b']) (by decide)⟩

-- ===========================================================================
-- § Theorems: C8 (cache cap is not enforced when "" is the oldest key)
-- ===========================================================================

theorem jsMapSet_of_fresh [BEq κ] (m : List (κ × α)) (k : κ) (v : α)
    (h : jsMapGet m k = none) : jsMapSet m k v = m ++ [(k, v)] := by
  induction m with
  | nil => rfl
  | cons e rest ih =>
    simp only [jsMapGet, List.find?] at h
    cases hk : e.1 == k with
    | true => simp [hk] at h
    | false =>
      simp only [jsMapSet, hk, if_false, List.cons_append, Bool.false_eq_true]
      rw [ih]
      simp only [jsMapGet]
      simp only [hk] at h
      simpa using h

theorem jsMapGet_append_none [BEq κ] (m : List (κ × α)) (k k2 : κ) (v : α)
    (h : jsMapGet m k2 = none) (hk : (k == k2) = false) :
    jsMapGet (m ++ [(k, v)]) k2 = none := by
  have h0 : List.find? (fun e => e.1 == k2) m = none := by
    simpa [jsMapGet] using h
  simp [jsMapGet, List.find?_append, h0, List.find?, hk]

theorem runCalls_fresh_length (keyLen maxSize : Nat) (compute : Str → α)
    (cache : List (Str × α)) (ts : List Str) (e0 : Str × α)
    (hh : cache.head? = some e0) (he : e0.1.isEmpty = true)
    (hn : (ts.map (cacheKeyOf keyLen)).Nodup)
    (hf : ∀ t ∈ ts, jsMapGet cache (cacheKeyOf keyLen t) = none) :
    (runCalls keyLen maxSize compute cache ts).length = cache.length + ts.length := by
  induction ts generalizing cache with
  | nil => simp [runCalls]
  | cons t rest ih =>
    have hft := hf t (List.mem_cons_self _ _)
    have hstep : (cachedCall keyLen maxSize compute cache t).2 =
        cache ++ [(cacheKeyOf keyLen t, compute t)] := by
      simp only [cachedCall]
      rw [show jsSubstring t 0 (keyLen : Int) = cacheKeyOf keyLen t from rfl]
      rw [hft]
      simp only [hh, he, if_true, ite_true, ite_self]
      rw [jsMapSet_of_fresh _ _ _ hft]
    have hcons : runCalls keyLen maxSize compute cache (t :: rest) =
        runCalls keyLen maxSize compute
          (cache ++ [(cacheKeyOf keyLen t, compute t)]) rest := by
      simp only [runCalls, List.foldl_cons, hstep]
    rw [hcons]
    have hne : cache ≠ [] := by
      intro hc; rw [hc] at hh; simp at hh
    have hh2 : (cache ++ [(cacheKeyOf keyLen t, compute t)]).head? = some e0 := by
      cases cache with
      | nil => exact absurd rfl hne
      | cons c cs => simpa using hh
    simp only [List.map, List.nodup_cons] at hn
    have hf2 : ∀ u ∈ rest,
        jsMapGet (cache ++ [(cacheKeyOf keyLen t, compute t)]) (cacheKeyOf keyLen u) = none := by
      intro u hu
      refine jsMapGet_append_none _ _ _ _ (hf u (List.mem_cons_of_mem _ hu)) ?_
      have : cacheKeyOf keyLen t ≠ cacheKeyOf keyLen u := by
        intro hq
        exact hn.1 (hq ▸ List.mem_map_of_mem (cacheKeyOf keyLen) hu)
      simpa using this
    rw [ih _ hh2 hn.2 hf2]
    simp only [List.length_append, List.length_cons, List.length_nil]
    omega

/-- C8 (code bug): the eviction guard is `if (firstKey)`, which is falsy
for the empty-string key; once `""` (the key of any empty or all-beyond-key
text) is the oldest cache entry, no insertion ever evicts, and the cache
grows past its cap. Concretely: the KeywordExtractor (cap 200) called on
the empty text and then on 200 texts with distinct fresh nonempty keys
ends with 201 cached entries, contradicting the claimed bound. -/
theorem cache_cap_exceeded (compute : Str → List ScoredKeyword) (ts : List Str)
    (h1 : (ts.map (cacheKeyOf 100)).Nodup)
    (h2 : ∀ t ∈ ts, (cacheKeyOf 100 t).isEmpty = false)
    (h3 : ts.length = 200) :
    (runCalls 100 KeywordExtractor.maxCacheSize compute [] ([] :: ts)).length = 201 ∧
    KeywordExtractor.maxCacheSize < 201 := by
  constructor
  · have hfirst : (cachedCall 100 KeywordExtractor.maxCacheSize compute
        ([] : List (Str × List ScoredKeyword)) []).2 = [(([] : Str), compute [])] := by
      rfl
    have hrun : runCalls 100 KeywordExtractor.maxCacheSize compute [] ([] :: ts) =
        runCalls 100 KeywordExtractor.maxCacheSize compute [(([] : Str), compute [])] ts := by
      simp only [runCalls, List.foldl_cons, hfirst]
    rw [hrun]
    have hf : ∀ t ∈ ts, jsMapGet [(([] : Str), compute [])] (cacheKeyOf 100 t) = none := by
      intro t ht
      have h2t := h2 t ht
      simp only [jsMapGet, List.find?]
      cases hkey : cacheKeyOf 100 t with
      | nil => rw [hkey] at h2t; simp at h2t
      | cons c cs => rfl
    rw [runCalls_fresh_length 100 KeywordExtractor.maxCacheSize compute
      [(([] : Str), compute [])] ts (([] : Str), compute []) rfl rfl h1 hf]
    simp only [List.length_cons, List.length_nil]
    omega
  · decide

/-- C8 witness: the hypotheses hold for `capTexts` (200 distinct two-letter
texts), with the keyword extractor's real compute function behind the
cache. -/
theorem cache_cap_exceeded_witness :
    ((capTexts.map (cacheKeyOf 100)).Nodup ∧
      (∀ t ∈ capTexts, (cacheKeyOf 100 t).isEmpty = false) ∧
      capTexts.length = 200) ∧
    ((runCalls 100 KeywordExtractor.maxCacheSize
        (fun t => KeywordExtractor.extractKeywordsList (fun _ => 0) DEFAULT_CONFIG t none)
        [] ([] :: capTexts)).length = 201 ∧
      KeywordExtractor.maxCacheSize < 201) :=
  ⟨⟨by decide, by decide, by decide⟩,
   cache_cap_exceeded _ capTexts (by decide) (by decide) (by decide)⟩

-- ===========================================================================
-- § Theorems: C9 (primary emotion and the 16-value enumeration)
-- ===========================================================================

theorem foldl_inv (P : σ → Prop) (Q : β → Prop) (f : σ → β → σ) (l : List β)
    (hl : ∀ b ∈ l, Q b) (hf : ∀ s b, P s → Q b → P (f s b)) (s : σ) (hs : P s) :
    P (l.foldl f s) := by
  induction l generalizing s with
  | nil => exact hs
  | cons b bs ih =>
    exact ih (fun x hx => hl x (List.mem_cons_of_mem _ hx)) _
      (hf s b hs (hl b (List.mem_cons_self _ _)))

theorem mem_jsMapSet_key [BEq κ] [LawfulBEq κ] (m : List (κ × α)) (k : κ) (v : α)
    (p : κ × α) (hp : p ∈ jsMapSet m k v) : p.1 = k ∨ ∃ q ∈ m, p.1 = q.1 := by
  induction m with
  | nil =>
    simp only [jsMapSet, List.mem_singleton] at hp
    exact Or.inl (by rw [hp])
  | cons e rest ih =>
    cases e with
    | mk k2 v2 =>
      simp only [jsMapSet] at hp
      by_cases hk : (k2 == k) = true
      · rw [if_pos hk] at hp
        rcases List.mem_cons.mp hp with rfl | hmem
        · exact Or.inl (eq_of_beq hk)
        · exact Or.inr ⟨p, List.mem_cons_of_mem _ hmem, rfl⟩
      · rw [if_neg hk] at hp
        rcases List.mem_cons.mp hp with rfl | hmem
        · exact Or.inr ⟨(k2, v2), List.mem_cons_self _ _, rfl⟩
        · rcases ih hmem with h | ⟨q, hq, hq2⟩
          · exact Or.inl h
          · exact Or.inr ⟨q, List.mem_cons_of_mem _ hq, hq2⟩

theorem jsObjGet_mem (m : List (String × α)) (k : String) (v : α)
    (h : jsObjGet m k = some v) : ∃ p ∈ m, p.2 = v := by
  simp only [jsObjGet, Option.map_eq_some'] at h
  rcases h with ⟨p, hp, hv⟩
  exact ⟨p, List.mem_reverse.mp (List.mem_of_find?_eq_some hp), hv⟩

theorem lexicon_emotions_in_enum :
    ∀ p ∈ SENTIMENT_LEXICON, ∀ em ∈ p.2.emotions, em ∈ EMOTION_CATEGORIES := by
  decide

theorem emoStep_keys (st : EmoState) (t : Token)
    (hinv : ∀ p ∈ st.counts, p.1 ∈ EMOTION_CATEGORIES) :
    ∀ p ∈ (emoStep st t).counts, p.1 ∈ EMOTION_CATEGORIES := by
  simp only [emoStep]
  cases hjo : jsObjGet SENTIMENT_LEXICON (strOf (lowerS t.lem)) with
  | none => exact hinv
  | some entry =>
    rcases jsObjGet_mem _ _ _ hjo with ⟨q, hq, hq2⟩
    refine foldl_inv (fun (s : EmoState) => ∀ p ∈ s.counts, p.1 ∈ EMOTION_CATEGORIES)
      (fun em => em ∈ EMOTION_CATEGORIES) _ _ ?_ ?_ st hinv
    · intro em hem
      exact lexicon_emotions_in_enum q hq em (by rw [hq2]; exact hem)
    · intro s em hs hem p hp
      rcases mem_jsMapSet_key _ _ _ p hp with h | ⟨q2, hq2m, hq22⟩
      · rw [h]; exact hem
      · rw [hq22]; exact hs q2 hq2m

/-- C9 (amended): the `primary` field of `analyzeEmotions` is either one of
the sixteen `EmotionCategory` values (every emotion tag in the lexicon is)
or the fallback string "neutral", which is outside the enumeration and is
returned whenever the text has no emotion-bearing words. -/
theorem emotions_primary_enum (text : Str) :
    (analyzeEmotionsCompute text).primary = "neutral" ∨
      (analyzeEmotionsCompute text).primary ∈ EMOTION_CATEGORIES := by
  simp only [analyzeEmotionsCompute]
  have hinv : ∀ p ∈ ((tokenizeCompute text).foldl emoStep ⟨[], [], 0⟩).counts,
      p.1 ∈ EMOTION_CATEGORIES := by
    refine foldl_inv (fun (s : EmoState) => ∀ p ∈ s.counts, p.1 ∈ EMOTION_CATEGORIES)
      (fun _ => True) _ _ (fun _ _ => trivial) ?_ _ ?_
    · intro s b hs _
      exact emoStep_keys s b hs
    · intro p hp; cases hp
  cases hh : (jsSortBy (fun a b => decide (b.2 < a.2))
      ((tokenizeCompute text).foldl emoStep ⟨[], [], 0⟩).counts).head? with
  | none => simp [hh]
  | some e =>
    simp only [hh]
    by_cases he : e.1 = ""
    · simp [he]
    · right
      simp only [if_neg he]
      have hmem : e ∈ jsSortBy (fun a b => decide (b.2 < a.2))
          ((tokenizeCompute text).foldl emoStep ⟨[], [], 0⟩).counts :=
        List.mem_of_mem_head? hh
      exact hinv e ((mem_jsSortBy _ _ _).mp hmem)

/-- C9 counterexample: on the empty text (no emotion words at all) the
primary emotion is the string "neutral", which is not one of the sixteen
`EmotionCategory` values, against the claim's "including when the text
contains no emotion-bearing words". -/
theorem emotions_primary_neutral :
    (analyzeEmotionsCompute []).primary = "neutral" ∧
    ("neutral" ∈ EMOTION_CATEGORIES → False) := by
  exact ⟨by decide, by decide⟩

-- ===========================================================================
-- § Theorems: C6 (keyword list order and the stop-word set)
-- ===========================================================================

theorem combineKeywords_sorted (sets : List (List ScoredKeyword)) :
    (combineKeywords sets).Pairwise (fun a b => b.score ≤ a.score) := by
  simp only [combineKeywords]
  refine List.Pairwise.imp ?_
    (pairwise_jsSortBy (fun a b => decide (b.score < a.score)) ?_ ?_ _)
  · intro a b h
    simpa [decide_eq_false_iff_not, not_lt] using h
  · intro a b h
    simp only [decide_eq_true_eq] at h
    simp only [decide_eq_false_iff_not, not_lt]
    exact le_of_lt h
  · intro a b c h1 h2
    simp only [decide_eq_false_iff_not, not_lt] at h1 h2 ⊢
    exact le_trans h2 h1

/-- C6 (amended): for every log function, configuration, text and corpus,
the keyword list of `KeywordExtractor.extract` is sorted in descending
order of score; the claim's other half (no stop words) is false, see the
counterexample. -/
theorem extract_keywords_sorted (log : Rat → Rat) (cfg : KeywordConfig)
    (text : Str) (corpus : Option (List Str)) :
    (KeywordExtractor.extractKeywordsList log cfg text corpus).Pairwise
      (fun a b => b.score ≤ a.score) := by
  simp only [KeywordExtractor.extractKeywordsList]
  exact (combineKeywords_sorted _).sublist (List.take_sublist _ _)

/-- C6 counterexample: "Cans boxes cans boxes." — the token "Cans" is not a
stop word, but its lemma "can" is, and the stop-word filters check the raw
token text, so the keyword "can" (a member of the extractor's stop-word
set) is returned. -/
theorem extract_keywords_stopword :
    "can" ∈ (KeywordExtractor.extractKeywordsList (fun _ => 1) DEFAULT_CONFIG
        "Cans boxes cans boxes.".data none).map ScoredKeyword.keyword ∧
    "can" ∈ KE_STOP_WORDS := by
  exact ⟨by decide, by decide⟩

-- ===========================================================================
-- § Theorems: C2 (token spans cover the non-whitespace characters)
-- ===========================================================================

theorem isPrefixB_append (n t : Str) : isPrefixB n (n ++ t) = true := by
  induction n with
  | nil => rfl
  | cons a as ih => simpa [isPrefixB] using ih

theorem numTailF_split : ∀ (fuel : Nat) (s : Str),
    (numTailF fuel s).1 ++ (numTailF fuel s).2 = s := by
  intro fuel
  induction fuel with
  | zero => intro s; rfl
  | succ f ih =>
    intro s
    cases s with
    | nil => rfl
    | cons sep rest =>
      simp only [numTailF]
      split_ifs with hc
      · have := ih (rest.dropWhile isDigitChar)
        cases hr : numTailF f (rest.dropWhile isDigitChar) with
        | mk more rem =>
          rw [hr] at this
          simp only [hr]
          simp only [List.cons_append, List.append_assoc, List.cons.injEq, true_and]
          simp only at this
          rw [this, List.takeWhile_append_dropWhile]
      · rfl

theorem drop_len_takeWhile (p : Char → Bool) : ∀ l : List Char,
    l.drop (l.takeWhile p).length = l.dropWhile p := by
  intro l
  induction l with
  | nil => rfl
  | cons a l ih =>
    by_cases hp : p a = true
    · rw [List.takeWhile_cons_of_pos hp, List.dropWhile_cons_of_pos hp]
      simpa using ih
    · rw [List.takeWhile_cons_of_neg hp, List.dropWhile_cons_of_neg hp]
      rfl

theorem OccursFrom_mono (text : Str) : ∀ (rs : List RawTok) (k k2 : Nat),
    k ≤ k2 → OccursFrom text rs k2 → OccursFrom text rs k := by
  intro rs k k2 hk hocc
  cases rs with
  | nil => trivial
  | cons r rs =>
    rcases hocc with ⟨p, hp1, hp2, hp3, hp4⟩
    exact ⟨p, le_trans hk hp1, hp2, hp3, hp4⟩

theorem OccursFrom_cons (text : Str) (k : Nat) (tok rem : Str) (rt : RawType)
    (rs : List RawTok) (hk : k ≤ text.length)
    (hdc : text.drop k = tok ++ rem)
    (hocc : OccursFrom text rs (k + tok.length)) :
    OccursFrom text (⟨tok, rt⟩ :: rs) k := by
  show ∃ p, k ≤ p ∧ p + tok.length ≤ text.length ∧
    isPrefixB tok (text.drop p) = true ∧ OccursFrom text rs (p + tok.length)
  refine ⟨k, le_refl k, ?_, ?_, ?_⟩
  · have := congrArg List.length hdc
    rw [List.length_drop] at this
    simp only [List.length_append] at this
    omega
  · rw [hdc]
    exact isPrefixB_append tok rem
  · exact hocc

theorem scan_occurs (text : Str) : ∀ (fuel : Nat) (s : Str) (k : Nat),
    text.drop k = s → OccursFrom text (scanTokensF fuel s) k := by
  intro fuel
  induction fuel with
  | zero => intro s k hdrop; trivial
  | succ f ih =>
    intro s k hdrop
    cases s with
    | nil => trivial
    | cons c rest =>
      have hklen : k ≤ text.length := by
        by_contra hk
        push_neg at hk
        rw [List.drop_eq_nil_of_le (le_of_lt hk)] at hdrop
        exact absurd hdrop (by simp)
      simp only [scanTokensF]
      by_cases hL : isAsciiLetter c = true
      · rw [if_pos hL]
        have hsplit : List.takeWhile isAsciiLetter (c :: rest) ++
            List.dropWhile isAsciiLetter (c :: rest) = c :: rest :=
          List.takeWhile_append_dropWhile _ _
        cases hr1 : List.dropWhile isAsciiLetter (c :: rest) with
        | nil =>
          generalize hw : List.takeWhile isAsciiLetter (c :: rest) = w
          rw [hw, hr1] at hsplit
          refine OccursFrom_cons text k w [] RawType.word [] hklen ?_ trivial
          rw [hdrop, List.append_nil, ← hsplit, List.append_nil]
        | cons c2 r2 =>
          dsimp only
          split_ifs with hap
          · have hw2split : List.takeWhile isAsciiLetter r2 ++
                List.dropWhile isAsciiLetter r2 = r2 :=
              List.takeWhile_append_dropWhile _ _
            generalize hw2d : List.dropWhile isAsciiLetter r2 = r2d
            generalize hw2 : List.takeWhile isAsciiLetter r2 = w2
            generalize hw : List.takeWhile isAsciiLetter (c :: rest) = w
            rw [hw2d, hw2] at hw2split
            rw [hw, hr1] at hsplit
            have hdc : text.drop k = (w ++ c2 :: w2) ++ r2d := by
              rw [hdrop, ← hsplit, ← hw2split]
              simp [List.append_assoc]
            refine OccursFrom_cons text k (w ++ c2 :: w2) r2d RawType.word _ hklen hdc ?_
            refine ih r2d (k + (w ++ c2 :: w2).length) ?_
            rw [← List.drop_drop, hdc, List.drop_left]
          · generalize hw : List.takeWhile isAsciiLetter (c :: rest) = w
            rw [hw, hr1] at hsplit
            have hdc : text.drop k = w ++ c2 :: r2 := by rw [hdrop, ← hsplit]
            refine OccursFrom_cons text k w (c2 :: r2) RawType.word _ hklen hdc ?_
            refine ih (c2 :: r2) (k + w.length) ?_
            rw [← List.drop_drop, hdc, List.drop_left]
      · rw [if_neg hL]
        by_cases hD : isDigitChar c = true
        · rw [if_pos hD]
          have hsplit : List.takeWhile isDigitChar (c :: rest) ++
              List.dropWhile isDigitChar (c :: rest) = c :: rest :=
            List.takeWhile_append_dropWhile _ _
          cases htr : numTailF ((List.dropWhile isDigitChar (c :: rest)).length + 1)
              (List.dropWhile isDigitChar (c :: rest)) with
          | mk t1 t2 =>
            have htsplit : t1 ++ t2 = List.dropWhile isDigitChar (c :: rest) := by
              have h9 := numTailF_split
                ((List.dropWhile isDigitChar (c :: rest)).length + 1)
                (List.dropWhile isDigitChar (c :: rest))
              rw [htr] at h9
              exact h9
            cases ht2 : t2 with
            | nil =>
              generalize hds : List.takeWhile isDigitChar (c :: rest) = ds
              rw [hds] at hsplit
              rw [ht2] at htsplit
              have hdc : text.drop k = (ds ++ t1) ++ [] := by
                rw [hdrop, ← hsplit, ← htsplit]
                simp [List.append_assoc]
              exact OccursFrom_cons text k (ds ++ t1) [] RawType.word [] hklen hdc trivial
            | cons p r3 =>
              dsimp only
              split_ifs with hpc
              · generalize hds : List.takeWhile isDigitChar (c :: rest) = ds
                rw [hds] at hsplit
                rw [ht2] at htsplit
                have hdc : text.drop k = (ds ++ t1 ++ [p]) ++ r3 := by
                  rw [hdrop, ← hsplit, ← htsplit]
                  simp [List.append_assoc]
                refine OccursFrom_cons text k (ds ++ t1 ++ [p]) r3 RawType.word _ hklen hdc ?_
                refine ih r3 (k + (ds ++ t1 ++ [p]).length) ?_
                rw [← List.drop_drop, hdc, List.drop_left]
              · generalize hds : List.takeWhile isDigitChar (c :: rest) = ds
                rw [hds] at hsplit
                have hdc : text.drop k = (ds ++ t1) ++ t2 := by
                  rw [hdrop, ← hsplit, ← htsplit]
                  simp [List.append_assoc]
                rw [ht2] at hdc
                refine OccursFrom_cons text k (ds ++ t1) (p :: r3) RawType.word _ hklen hdc ?_
                refine ih (p :: r3) (k + (ds ++ t1).length) ?_
                rw [← List.drop_drop, hdc, List.drop_left]
        · rw [if_neg hD]
          by_cases hS : isSpaceChar c = true
          · rw [if_pos hS]
            refine OccursFrom_mono text _ k
              (k + (List.takeWhile isSpaceChar (c :: rest)).length) (by omega) ?_
            refine ih _ (k + (List.takeWhile isSpaceChar (c :: rest)).length) ?_
            rw [← List.drop_drop, hdrop]
            exact drop_len_takeWhile isSpaceChar (c :: rest)
          · rw [if_neg hS]
            by_cases hW : isWordChar c = true
            · rw [if_pos hW]
              refine OccursFrom_mono text _ k (k + 1) (by omega) ?_
              refine ih rest (k + 1) ?_
              rw [← List.drop_drop, hdrop]
              rfl
            · rw [if_neg hW]
              have hdc : text.drop k = [c] ++ rest := by rw [hdrop]; rfl
              refine OccursFrom_cons text k [c] rest RawType.punct _ hklen hdc ?_
              refine ih rest (k + 1) ?_
              rw [← List.drop_drop, hdrop]
              rfl

theorem isPrefixB_take (n : Str) : ∀ h : Str, isPrefixB n h = true → h.take n.length = n := by
  induction n with
  | nil => intro h _; simp
  | cons a as ih =>
    intro h hp
    cases h with
    | nil => simp [isPrefixB] at hp
    | cons b bs =>
      simp only [isPrefixB, Bool.and_eq_true, beq_iff_eq] at hp
      simp only [List.length_cons, List.take_succ_cons, hp.1]
      rw [ih bs hp.2]

theorem findFromF_found (hay needle : Str) (p : Nat)
    (hp : isPrefixB needle (hay.drop p) = true) (hple : p ≤ hay.length) :
    ∀ (fuel i : Nat), i ≤ p → hay.length + 1 - i ≤ fuel →
    ∃ q, findFromF hay needle fuel i = some q ∧ i ≤ q ∧ q ≤ p ∧
      isPrefixB needle (hay.drop q) = true := by
  intro fuel
  induction fuel with
  | zero => intro i hip hfu; omega
  | succ f ih =>
    intro i hip hfu
    by_cases hpre : isPrefixB needle (hay.drop i) = true
    · refine ⟨i, ?_, le_refl i, hip, hpre⟩
      simp only [findFromF]
      rw [if_pos hpre]
    · have hip2 : i < p := lt_of_le_of_ne hip (fun he => hpre (he ▸ hp))
      have hlen : ¬ hay.length ≤ i := by omega
      rcases ih (i + 1) (by omega) (by omega) with ⟨q, hq1, hq2, hq3, hq4⟩
      refine ⟨q, ?_, by omega, hq3, hq4⟩
      simp only [findFromF]
      rw [if_neg hpre, if_neg hlen]
      exact hq1

theorem jsSubstring_eq_of_found (text needle : Str) (q : Nat)
    (hpre : isPrefixB needle (text.drop q) = true)
    (hle : q + needle.length ≤ text.length) :
    jsSubstring text (q : Int) ((q : Int) + (needle.length : Int)) = needle := by
  have htake := isPrefixB_take needle (text.drop q) hpre
  simp only [jsSubstring]
  have h1 : ((q : Int)).toNat = q := Int.toNat_ofNat q
  have h2 : ((q : Int) + (needle.length : Int)).toNat = q + needle.length := by omega
  rw [h1, h2]
  rw [min_eq_left (by omega), min_eq_left (by omega)]
  rw [if_pos (by omega)]
  rw [show q + needle.length - q = needle.length by omega]
  exact htake

theorem analyzeToken_span (t : Str) (i : Nat) (a b : Int) :
    (analyzeToken t i a b).startChar = a ∧ (analyzeToken t i a b).endChar = b :=
  ⟨rfl, rfl⟩

theorem tokenizeGo_join (text : Str) : ∀ (rs : List RawTok) (ci : Int) (idx k : Nat),
    ci.toNat ≤ k → OccursFrom text rs k →
    ((tokenizeGo text rs ci idx).map
        (fun t => jsSubstring text t.startChar t.endChar)).flatten =
      (rs.map (fun r => r.text)).flatten := by
  intro rs
  induction rs with
  | nil => intro ci idx k hci hocc; rfl
  | cons r rs ih =>
    intro ci idx k hci hocc
    rcases hocc with ⟨p, hkp, hplen, hpre, hocc2⟩
    have hple : p ≤ text.length := by omega
    have hstart : min ci.toNat text.length ≤ p :=
      le_trans (min_le_left _ _) (le_trans hci hkp)
    rcases findFromF_found text r.text p hpre hple (text.length + 1)
      (min ci.toNat text.length) hstart (by omega) with ⟨q, hq1, hq2, hq3, hq4⟩
    simp only [tokenizeGo, jsIndexOf]
    rw [hq1]
    simp only [List.map_cons, List.flatten_cons]
    rw [(analyzeToken_span r.text idx _ _).1, (analyzeToken_span r.text idx _ _).2]
    rw [jsSubstring_eq_of_found text r.text q hq4 (by omega)]
    rw [ih ((q : Int) + (r.text.length : Int)) (idx + 1) (p + r.text.length)
      (by omega) hocc2]

theorem nonspace_of_range (c : Char) (h1 : 33 ≤ c.toNat) (h2 : c.toNat ≤ 127) :
    isSpaceChar c = false := by
  rw [isSpaceChar, Bool.eq_false_iff]
  intro hc
  rw [List.contains_iff_exists_mem_beq] at hc
  rcases hc with ⟨a, ha, hb⟩
  simp only [wsCodes, List.mem_cons, List.not_mem_nil, or_false] at ha
  rw [beq_iff_eq] at hb
  omega

theorem nonspace_of_letter (c : Char) (h : isAsciiLetter c = true) :
    isSpaceChar c = false := by
  simp only [isAsciiLetter, Bool.or_eq_true, Bool.and_eq_true, decide_eq_true_eq] at h
  refine nonspace_of_range c (by omega) (by omega)

theorem nonspace_of_digit (c : Char) (h : isDigitChar c = true) :
    isSpaceChar c = false := by
  simp only [isDigitChar, Bool.and_eq_true, decide_eq_true_eq] at h
  exact nonspace_of_range c (by omega) (by omega)


theorem numTailF_nonspace : ∀ (fuel : Nat) (s : Str),
    ∀ c ∈ (numTailF fuel s).1, isSpaceChar c = false := by
  intro fuel
  induction fuel with
  | zero => intro s c hcm; cases hcm
  | succ f ih =>
    intro s c hcm
    cases s with
    | nil => cases hcm
    | cons sep rest =>
      simp only [numTailF] at hcm
      split_ifs at hcm with hc
      · have hsep : sep = '.' ∨ sep = ',' := by
          simp only [Bool.and_eq_true, Bool.or_eq_true, beq_iff_eq] at hc
          exact hc.1
        cases hr : numTailF f (rest.dropWhile isDigitChar) with
        | mk more rem =>
          rw [hr] at hcm
          simp only at hcm
          rcases List.mem_cons.mp hcm with rfl | hm2
          · rcases hsep with rfl | rfl <;> decide
          · rcases List.mem_append.mp hm2 with h3 | h3
            · exact nonspace_of_digit c (List.mem_takeWhile_imp h3)
            · have := ih (rest.dropWhile isDigitChar) c
              rw [hr] at this
              exact this h3
      · cases hcm

theorem scanTokens_join : ∀ (fuel : Nat) (s : Str), s.length < fuel → '_' ∉ s →
    ((scanTokensF fuel s).map (fun r => r.text)).flatten =
      s.filter (fun c => !isSpaceChar c) := by
  intro fuel
  induction fuel with
  | zero => intro s hf _; exact absurd hf (Nat.not_lt_zero _)
  | succ f ih =>
    intro s hf h
    cases s with
    | nil => rfl
    | cons c rest =>
      simp only [List.length_cons] at hf
      simp only [scanTokensF]
      by_cases hL : isAsciiLetter c = true
      · rw [if_pos hL]
        have hsplit : List.takeWhile isAsciiLetter (c :: rest) ++
            List.dropWhile isAsciiLetter (c :: rest) = c :: rest :=
          List.takeWhile_append_dropWhile _ _
        have hwfilter : (List.takeWhile isAsciiLetter (c :: rest)).filter
            (fun x => !isSpaceChar x) = List.takeWhile isAsciiLetter (c :: rest) := by
          refine List.filter_eq_self.mpr ?_
          intro a ha
          simp [nonspace_of_letter a (List.mem_takeWhile_imp ha)]
        have hwlen : 1 ≤ (List.takeWhile isAsciiLetter (c :: rest)).length := by
          rw [List.takeWhile_cons_of_pos hL]; simp
        have hlens := congrArg List.length hsplit
        simp only [List.length_append, List.length_cons] at hlens
        cases hr1 : List.dropWhile isAsciiLetter (c :: rest) with
        | nil =>
          simp only [List.map_cons, List.map_nil, List.flatten_cons, List.flatten_nil]
          conv_rhs => rw [← hsplit, hr1, List.append_nil]
          simp [hwfilter]
        | cons c2 r2 =>
          dsimp only
          split_ifs with hap
          · have hc2 : c2 = apos := by
              simp only [Bool.and_eq_true, beq_iff_eq] at hap
              exact hap.1
            have hw2split : List.takeWhile isAsciiLetter r2 ++
                List.dropWhile isAsciiLetter r2 = r2 := List.takeWhile_append_dropWhile _ _
            have hw2filter : (List.takeWhile isAsciiLetter r2).filter
                (fun x => !isSpaceChar x) = List.takeWhile isAsciiLetter r2 := by
              refine List.filter_eq_self.mpr ?_
              intro a ha
              simp [nonspace_of_letter a (List.mem_takeWhile_imp ha)]
            have hlen2 : (List.dropWhile isAsciiLetter r2).length < f := by
              have h1 : (List.dropWhile isAsciiLetter r2).length ≤ r2.length :=
                (List.dropWhile_sublist _).length_le
              rw [hr1] at hlens
              simp only [List.length_cons] at hlens
              omega
            have hmem2 : '_' ∉ List.dropWhile isAsciiLetter r2 := by
              intro hm
              apply h
              rw [← hsplit, hr1]
              exact List.mem_append_right _
                (List.mem_cons_of_mem _ ((List.dropWhile_sublist _).mem hm))
            simp only [List.map_cons, List.flatten_cons]
            rw [ih _ hlen2 hmem2]
            conv_rhs => rw [← hsplit, hr1]
            rw [List.filter_append, hwfilter,
              List.filter_cons_of_pos (by rw [hc2]; rfl)]
            conv_rhs => rw [← hw2split]
            rw [List.filter_append, hw2filter]
            simp [List.append_assoc, hc2]
          · have hlen2 : (c2 :: r2).length < f := by
              rw [hr1] at hlens
              simp only [List.length_cons] at hlens ⊢
              omega
            have hmem2 : '_' ∉ c2 :: r2 := by
              intro hm
              apply h
              rw [← hsplit, hr1]
              exact List.mem_append_right _ hm
            simp only [List.map_cons, List.flatten_cons]
            rw [ih _ hlen2 hmem2]
            conv_rhs => rw [← hsplit, hr1]
            rw [List.filter_append, hwfilter]
      · rw [if_neg hL]
        by_cases hD : isDigitChar c = true
        · rw [if_pos hD]
          have hsplit : List.takeWhile isDigitChar (c :: rest) ++
              List.dropWhile isDigitChar (c :: rest) = c :: rest :=
            List.takeWhile_append_dropWhile _ _
          have hdfilter : (List.takeWhile isDigitChar (c :: rest)).filter
              (fun x => !isSpaceChar x) = List.takeWhile isDigitChar (c :: rest) := by
            refine List.filter_eq_self.mpr ?_
            intro a ha
            simp [nonspace_of_digit a (List.mem_takeWhile_imp ha)]
          have hdlen : 1 ≤ (List.takeWhile isDigitChar (c :: rest)).length := by
            rw [List.takeWhile_cons_of_pos hD]; simp
          have hlens := congrArg List.length hsplit
          simp only [List.length_append, List.length_cons] at hlens
          cases htr : numTailF ((List.dropWhile isDigitChar (c :: rest)).length + 1)
              (List.dropWhile isDigitChar (c :: rest)) with
          | mk t1 t2 =>
            have htsplit : t1 ++ t2 = List.dropWhile isDigitChar (c :: rest) := by
              have := numTailF_split ((List.dropWhile isDigitChar (c :: rest)).length + 1)
                (List.dropWhile isDigitChar (c :: rest))
              rw [htr] at this
              exact this
            have ht1f : t1.filter (fun x => !isSpaceChar x) = t1 := by
              refine List.filter_eq_self.mpr ?_
              intro a ha
              have h5 := numTailF_nonspace
                ((List.dropWhile isDigitChar (c :: rest)).length + 1)
                (List.dropWhile isDigitChar (c :: rest)) a
              rw [htr] at h5
              simp [h5 ha]
            have hlent := congrArg List.length htsplit
            simp only [List.length_append] at hlent
            cases ht2 : t2 with
            | nil =>
              simp only [List.map_cons, List.map_nil, List.flatten_cons, List.flatten_nil]
              conv_rhs => rw [← hsplit, ← htsplit, ht2, List.append_nil]
              rw [List.filter_append, hdfilter, ht1f]
              simp
            | cons p r3 =>
              dsimp only
              split_ifs with hpc
              · have hp : p = '%' := beq_iff_eq.mp hpc
                have hlen3 : r3.length < f := by
                  rw [ht2] at hlent
                  simp only [List.length_cons] at hlent
                  omega
                have hmem3 : '_' ∉ r3 := by
                  intro hm
                  apply h
                  rw [← hsplit, ← htsplit, ht2]
                  exact List.mem_append_right _
                    (List.mem_append_right _ (List.mem_cons_of_mem _ hm))
                simp only [List.map_cons, List.flatten_cons]
                rw [ih _ hlen3 hmem3]
                conv_rhs => rw [← hsplit, ← htsplit, ht2]
                rw [List.filter_append, hdfilter, List.filter_append, ht1f,
                  List.filter_cons_of_pos (by rw [hp]; rfl)]
                simp [List.append_assoc, hp]
              · have hlen3 : (p :: r3).length < f := by
                  rw [ht2] at hlent
                  simp only [List.length_cons] at hlent ⊢
                  omega
                have hmem3 : '_' ∉ p :: r3 := by
                  intro hm
                  apply h
                  rw [← hsplit, ← htsplit, ht2]
                  exact List.mem_append_right _ (List.mem_append_right _ hm)
                simp only [List.map_cons, List.flatten_cons]
                rw [ih _ hlen3 hmem3]
                conv_rhs => rw [← hsplit, ← htsplit, ht2]
                rw [List.filter_append, hdfilter, List.filter_append, ht1f]
                simp [List.append_assoc]
        · rw [if_neg hD]
          by_cases hS : isSpaceChar c = true
          · rw [if_pos hS]
            have hlen2 : (List.dropWhile isSpaceChar (c :: rest)).length < f := by
              rw [List.dropWhile_cons_of_pos hS]
              have h6 := (List.dropWhile_sublist (l := rest) isSpaceChar).length_le
              omega
            have hmem2 : '_' ∉ List.dropWhile isSpaceChar (c :: rest) := by
              intro hm
              exact h ((List.dropWhile_sublist _).mem hm)
            rw [ih _ hlen2 hmem2]
            have hsp : List.filter (fun x => !isSpaceChar x)
                (List.takeWhile isSpaceChar (c :: rest)) = [] := by
              rw [List.filter_eq_nil_iff]
              intro a ha
              rw [List.mem_takeWhile_imp ha]
              simp
            conv_rhs => rw [← List.takeWhile_append_dropWhile isSpaceChar (c :: rest)]
            rw [List.filter_append, hsp, List.nil_append]
          · rw [if_neg hS]
            by_cases hW : isWordChar c = true
            · rw [if_pos hW]
              exfalso
              simp only [isWordChar, Bool.or_eq_true, decide_eq_true_eq] at hW
              rcases hW with (hW | hW) | hW
              · exact hL hW
              · exact hD hW
              · have hcu : c = '_' := by
                  have h2 : Char.ofNat c.toNat = Char.ofNat 95 := by rw [hW]
                  rwa [Char.ofNat_toNat] at h2
                exact h (hcu ▸ List.mem_cons_self _ _)
            · rw [if_neg hW]
              have hS2 : isSpaceChar c = false := Bool.eq_false_iff.mpr hS
              have hlen2 : rest.length < f := by
                omega
              have hmem2 : '_' ∉ rest := fun hm => h (List.mem_cons_of_mem _ hm)
              simp only [List.map_cons, List.flatten_cons]
              rw [ih _ hlen2 hmem2]
              rw [List.filter_cons_of_pos (by rw [hS2]; rfl)]
              rfl

/-- C2 (amended): for every text without an underscore, concatenating the
substrings `text[startChar, endChar)` of the tokens of `tokenize(text)` in
order reproduces exactly the non-whitespace characters of the text in their
original order; the underscore itself is matched by no alternative of the
token regex (it is a word character, but the word alternatives cover only
letters and digits), so it is silently dropped, see the counterexample. -/
theorem tokenize_nonspace_concat (text : Str) (h : '_' ∉ text) :
    ((tokenizeCompute text).map
        (fun t => jsSubstring text t.startChar t.endChar)).flatten =
      text.filter (fun c => !isSpaceChar c) := by
  unfold tokenizeCompute splitIntoRawTokens
  rw [tokenizeGo_join text _ 0 0 0 (by simp) (scan_occurs text _ text 0 (by simp))]
  exact scanTokens_join (text.length + 1) text (by omega) h

/-- C2 witness: the amended statement at a concrete underscore-free text
with words, punctuation, an apostrophe-free contraction-like shape and a
percent number. -/
theorem tokenize_nonspace_concat_witness :
    ('_' ∉ "Hello, world! It is 42.5% done.".data) ∧
    ((tokenizeCompute "Hello, world! It is 42.5% done.".data).map
        (fun t => jsSubstring "Hello, world! It is 42.5% done.".data t.startChar t.endChar)).flatten =
      "Hello, world! It is 42.5% done.".data.filter (fun c => !isSpaceChar c) :=
  ⟨by decide, tokenize_nonspace_concat "Hello, world! It is 42.5% done.".data (by decide)⟩

/-- C2 counterexample: on "a_b" the token spans concatenate to "ab", but
the non-whitespace characters of the text are "a_b": the underscore was
dropped by the scanner, so the claimed equality fails. -/
theorem tokenize_drops_underscore :
    ((tokenizeCompute "a_b".data).map
        (fun t => jsSubstring "a_b".data t.startChar t.endChar)).flatten = "ab".data ∧
    "a_b".data.filter (fun c => !isSpaceChar c) = "a_b".data ∧
    ("ab".data = "a_b".data → False) := by
  refine ⟨by decide, by decide, by decide⟩
